import Mathlib

set_option maxHeartbeats 1000000

/-!
Verification development for the voice/text task manager.

The definitions below are shallow embeddings of the TypeScript sources:
* `StorageService` from the storage service module,
* `SmartTaskAssistant` from client/lib/smart-assistant.ts,
* `ExactTaskService` from client/lib/exact-task-service.ts,
* `ExactVoiceProcessor` from the exact voice processor module,
* `SmartCommandProcessor` from the smart command processor module.

The browser-global task store (localStorage) is modelled as a `List Task`
threaded explicitly through every operation; the module-level pending-state
slots become fields of an explicit state record.  Floating point similarity
scores are modelled as rationals.  Task ids, generated by the store from the
clock and a random suffix, are passed in explicitly where a task is created.
-/

namespace Todo

/-- `TaskStatus` from the task card module: "pending" | "in-progress" | "completed". -/
inductive TaskStatus where
  | pending
  | inProgress
  | completed
deriving DecidableEq, Repr

/-- `TaskPriority` from the task card module: "urgent" | "high" | "medium" | "low". -/
inductive TaskPriority where
  | urgent
  | high
  | medium
  | low
deriving DecidableEq, Repr

/-- The `Task` record from the task card module.  `dueDate` timestamps are
modelled as natural numbers. -/
structure Task where
  id : String
  title : String
  description : Option String := none
  priority : TaskPriority
  status : TaskStatus
  dueDate : Option Nat := none
  tags : List String := []
deriving DecidableEq, Repr

namespace StorageService

/-- The `Partial<Task>` argument of `StorageService.updateTask`: each field is
present (`some`) or absent (`none`).  A JS object spread `{...task, ...updates}`
overrides exactly the present fields. -/
structure TaskUpdates where
  id : Option String := none
  title : Option String := none
  description : Option (Option String) := none
  priority : Option TaskPriority := none
  status : Option TaskStatus := none
  dueDate : Option (Option Nat) := none
  tags : Option (List String) := none
deriving DecidableEq, Repr

/-- The object spread `{ ...tasks[index], ...updates }` in `StorageService.updateTask`. -/
def applyUpdates (u : TaskUpdates) (t : Task) : Task where
  id := u.id.getD t.id
  title := u.title.getD t.title
  description := u.description.getD t.description
  priority := u.priority.getD t.priority
  status := u.status.getD t.status
  dueDate := u.dueDate.getD t.dueDate
  tags := u.tags.getD t.tags

/-- `StorageService.addTask`: prepends (`unshift`) the new task with a
store-assigned id.  The id is passed explicitly here. -/
def addTask (newId : String) (title : String) (description : Option String)
    (priority : TaskPriority) (status : TaskStatus) (dueDate : Option Nat)
    (tags : List String) (tasks : List Task) : Task × List Task :=
  let newTask : Task :=
    { id := newId, title := title, description := description,
      priority := priority, status := status, dueDate := dueDate, tags := tags }
  (newTask, newTask :: tasks)

/-- `StorageService.updateTask`: finds the first task whose id matches
(`findIndex`), merges the updates into it, returns whether a task was found.
Returns the stored list unchanged when no task has the given id. -/
def updateTask (taskId : String) (u : TaskUpdates) : List Task → Bool × List Task
  | [] => (false, [])
  | t :: ts =>
    if t.id = taskId then
      (true, applyUpdates u t :: ts)
    else
      let r := updateTask taskId u ts
      (r.1, t :: r.2)

/-- `StorageService.deleteTask`: filters out tasks with the given id; reports
`false` (and leaves the store as is) when the filter removed nothing. -/
def deleteTask (taskId : String) (tasks : List Task) : Bool × List Task :=
  let filteredTasks := tasks.filter (fun t => t.id ≠ taskId)
  if filteredTasks.length = tasks.length then (false, tasks) else (true, filteredTasks)

/-- `StorageService.updateTaskStatus`: `updateTask(id, { status })`. -/
def updateTaskStatus (taskId : String) (status : TaskStatus) (tasks : List Task) :
    Bool × List Task :=
  updateTask taskId { status := some status } tasks

/-- `StorageService.getTaskById`. -/
def getTaskById (taskId : String) (tasks : List Task) : Option Task :=
  tasks.find? (fun t => t.id = taskId)

/-- `StorageService.getTasksByStatus`. -/
def getTasksByStatus (status : TaskStatus) (tasks : List Task) : List Task :=
  tasks.filter (fun t => t.status = status)

theorem updateTask_not_found {taskId : String} {u : TaskUpdates} :
    ∀ {tasks : List Task}, (∀ t ∈ tasks, t.id ≠ taskId) →
      updateTask taskId u tasks = (false, tasks) := by
  intro tasks
  induction tasks with
  | nil => intro _; rfl
  | cons t ts ih =>
    intro h
    have ht : t.id ≠ taskId := h t (List.mem_cons_self t ts)
    have hts := ih (fun x hx => h x (List.mem_cons_of_mem t hx))
    simp [updateTask, ht, hts]

theorem updateTask_found {taskId : String} {u : TaskUpdates} (l₁ : List Task)
    (t : Task) (l₂ : List Task) (ht : t.id = taskId) (hl₁ : ∀ x ∈ l₁, x.id ≠ taskId) :
    updateTask taskId u (l₁ ++ t :: l₂) = (true, l₁ ++ applyUpdates u t :: l₂) := by
  induction l₁ with
  | nil => simp [updateTask, ht]
  | cons x xs ih =>
    have hx : x.id ≠ taskId := hl₁ x (List.mem_cons_self x xs)
    have := ih (fun y hy => hl₁ y (List.mem_cons_of_mem x hy))
    simp [updateTask, hx, this]

theorem deleteTask_not_found {taskId : String} {tasks : List Task}
    (h : ∀ t ∈ tasks, t.id ≠ taskId) : deleteTask taskId tasks = (false, tasks) := by
  have hfe : tasks.filter (fun t => t.id ≠ taskId) = tasks := by
    refine List.filter_eq_self.mpr ?_
    intro a ha
    simp [h a ha]
  simp only [deleteTask]
  rw [hfe]
  simp

theorem deleteTask_found {taskId : String} {tasks : List Task}
    (t : Task) (hmem : t ∈ tasks) (ht : t.id = taskId) :
    deleteTask taskId tasks = (true, tasks.filter (fun x => x.id ≠ taskId)) := by
  have hne : tasks.filter (fun x => x.id ≠ taskId) ≠ tasks := by
    intro hEq
    have hmem' : t ∈ tasks.filter (fun x => x.id ≠ taskId) := hEq.symm ▸ hmem
    have := List.of_mem_filter hmem'
    simp [ht] at this
  have hlen : (tasks.filter (fun x => x.id ≠ taskId)).length ≠ tasks.length := by
    intro hEq
    exact hne ((tasks.filter_sublist).eq_of_length hEq)
  simp only [deleteTask]
  rw [if_neg hlen]

end StorageService

namespace SmartTaskAssistant

/-- `needle` is a prefix of `hay`, on character lists. -/
def prefB : List Char → List Char → Bool
  | [], _ => true
  | _ :: _, [] => false
  | a :: as, b :: bs => a = b && prefB as bs

/-- `needle` occurs as a contiguous run inside the second list. -/
def subListB (needle : List Char) : List Char → Bool
  | [] => prefB needle []
  | c :: cs => prefB needle (c :: cs) || subListB needle cs

/-- JS `hay.includes(pat)`: substring containment. -/
def strIncludes (hay pat : String) : Bool :=
  subListB pat.toList hay.toList

/-- Helper for `splitOnSpaces`: accumulates the current word (reversed). -/
def splitOnSpacesAux : List Char → List Char → List String
  | [], acc => [String.mk acc.reverse]
  | c :: cs, acc =>
    if c = ' ' then String.mk acc.reverse :: splitOnSpacesAux cs []
    else splitOnSpacesAux cs (c :: acc)

/-- JS `s.split(" ")`: splits at every single space, keeping empty pieces. -/
def splitOnSpaces (s : String) : List String :=
  splitOnSpacesAux s.toList []

/-- JS `s.toLowerCase()` (ASCII letters, as in the source's inputs). -/
def toLowerCase (s : String) : String :=
  String.mk (s.toList.map Char.toLower)

/-- Match type of a suggestion; `part` models the source's "partial" tier. -/
inductive MatchType where
  | exact
  | part
  | fuzzy
deriving DecidableEq, Repr

/-- `SmartTaskAssistant.calculateSimilarity`: exact equality scores 1.0,
substring containment in either direction 0.8, then word overlap
(`intersection.length / union.length * 0.6`, where the intersection keeps
duplicates from the first token list and the union is deduplicated), and
finally a character-overlap fallback scaled by 0.4.  Scores are rationals. -/
def calculateSimilarity (str1 str2 : String) : Rat :=
  if str1 = str2 then 1
  else if strIncludes str2 str1 || strIncludes str1 str2 then 4/5
  else
    let words1 := splitOnSpaces str1
    let words2 := splitOnSpaces str2
    let intersection := words1.filter (fun word => word ∈ words2)
    let union := (words1 ++ words2).dedup
    if 0 < intersection.length then
      ((intersection.length : Rat) / (union.length : Rat)) * (3/5)
    else
      let overlap := (str1.toList.filter (fun c => c ∈ str2.toList)).length
      ((overlap : Rat) / ((max str1.length str2.length : Nat) : Rat)) * (2/5)

/-- `SmartTaskAssistant.getMatchType`. -/
def getMatchType (query title : String) : MatchType :=
  if query = title then .exact
  else if strIncludes title query || strIncludes query title then .part
  else .fuzzy

/-- A scored candidate, as in the `TaskSuggestion` interface. -/
structure TaskSuggestion where
  task : Task
  similarity : Rat
  matchType : MatchType
deriving DecidableEq, Repr

/-- Insertion step of a stable descending sort on `similarity`. -/
def insertDesc (x : TaskSuggestion) : List TaskSuggestion → List TaskSuggestion
  | [] => [x]
  | y :: ys => if y.similarity ≤ x.similarity then x :: y :: ys else y :: insertDesc x ys

/-- The stable JS `suggestions.sort((a, b) => b.similarity - a.similarity)`:
highest similarity first, ties keep their original relative order. -/
def sortBySimilarity : List TaskSuggestion → List TaskSuggestion
  | [] => []
  | x :: xs => insertDesc x (sortBySimilarity xs)

/-- Loop body of `SmartTaskAssistant.findTaskSuggestions`: score one task
against the lowercased query and keep it when the similarity is strictly
above the relevance threshold 0.3. -/
def suggestionFor (query : String) (task : Task) : Option TaskSuggestion :=
  let similarity := calculateSimilarity (toLowerCase query) (toLowerCase task.title)
  if 3/10 < similarity then
    some { task := task, similarity := similarity,
           matchType := getMatchType (toLowerCase query) (toLowerCase task.title) }
  else none

/-- `SmartTaskAssistant.findTaskSuggestions`: score every task against the
lowercased query, keep those with similarity strictly above 0.3, sort by
descending similarity. -/
def findTaskSuggestions (query : String) (tasks : List Task) : List TaskSuggestion :=
  let suggestions := tasks.filterMap (suggestionFor query)
  sortBySimilarity suggestions

theorem calculateSimilarity_exact {s t : String} (h : s = t) :
    calculateSimilarity s t = 1 := by
  simp [calculateSimilarity, h]

theorem calculateSimilarity_sub {s t : String} (h : s ≠ t)
    (h2 : (strIncludes t s || strIncludes s t) = true) :
    calculateSimilarity s t = 4/5 := by
  rw [calculateSimilarity, if_neg h, if_pos h2]

theorem calculateSimilarity_words {s t : String} {i u : Nat} (h : s ≠ t)
    (h2 : (strIncludes t s || strIncludes s t) = false)
    (hi : ((splitOnSpaces s).filter (fun word => word ∈ splitOnSpaces t)).length = i)
    (hu : ((splitOnSpaces s ++ splitOnSpaces t).dedup).length = u)
    (hpos : 0 < i) :
    calculateSimilarity s t = ((i : Rat) / (u : Rat)) * (3/5) := by
  rw [calculateSimilarity, if_neg h, if_neg (by simp [h2])]
  simp only [hi, hu]
  rw [if_pos hpos]

theorem calculateSimilarity_chars {s t : String} {o : Nat} (h : s ≠ t)
    (h2 : (strIncludes t s || strIncludes s t) = false)
    (hi : ((splitOnSpaces s).filter (fun word => word ∈ splitOnSpaces t)).length = 0)
    (ho : (s.toList.filter (fun c => c ∈ t.toList)).length = o)
    {m : Nat} (hm : max s.length t.length = m) :
    calculateSimilarity s t = ((o : Rat) / (m : Rat)) * (2/5) := by
  rw [calculateSimilarity, if_neg h, if_neg (by simp [h2])]
  simp only [hi, ho, hm]
  rw [if_neg (by simp)]

theorem splitOnSpacesAux_ne_nil (l acc : List Char) : splitOnSpacesAux l acc ≠ [] := by
  induction l generalizing acc with
  | nil => simp [splitOnSpacesAux]
  | cons c cs ih =>
    rw [splitOnSpacesAux]
    by_cases hc : c = ' '
    · rw [if_pos hc]; simp
    · rw [if_neg hc]; exact ih _

theorem splitOnSpaces_ne_nil (s : String) : splitOnSpaces s ≠ [] :=
  splitOnSpacesAux_ne_nil _ _

/-- Any similarity score of two distinct strings is strictly below 1 as long as
the first string's token list has no duplicated token. -/
theorem calculateSimilarity_lt_one {s t : String} (h : s ≠ t)
    (hnd : (splitOnSpaces s).Nodup) : calculateSimilarity s t < 1 := by
  rw [calculateSimilarity, if_neg h]
  by_cases hsub : (strIncludes t s || strIncludes s t) = true
  · rw [if_pos hsub]; norm_num
  · rw [if_neg hsub]
    simp only []
    by_cases hint :
        0 < ((splitOnSpaces s).filter (fun word => word ∈ splitOnSpaces t)).length
    · rw [if_pos hint]
      have hndf : ((splitOnSpaces s).filter
          (fun word => word ∈ splitOnSpaces t)).Nodup := hnd.filter _
      have hsubset : ((splitOnSpaces s).filter (fun word => word ∈ splitOnSpaces t)) ⊆
          ((splitOnSpaces s ++ splitOnSpaces t).dedup) := by
        intro a ha
        have := List.mem_of_mem_filter ha
        exact List.mem_dedup.mpr (List.mem_append_left _ this)
      have hle : ((splitOnSpaces s).filter (fun word => word ∈ splitOnSpaces t)).length ≤
          ((splitOnSpaces s ++ splitOnSpaces t).dedup).length :=
        (hndf.subperm hsubset).length_le
      have hupos : 0 < ((splitOnSpaces s ++ splitOnSpaces t).dedup).length :=
        Nat.lt_of_lt_of_le hint hle
      have hdiv : (((splitOnSpaces s).filter
            (fun word => word ∈ splitOnSpaces t)).length : Rat) /
          (((splitOnSpaces s ++ splitOnSpaces t).dedup).length : Rat) ≤ 1 := by
        rw [div_le_one (by exact_mod_cast hupos)]
        exact_mod_cast hle
      calc _ ≤ (1 : Rat) * (3/5) := by
              apply mul_le_mul_of_nonneg_right hdiv
              norm_num
        _ < 1 := by norm_num
    · rw [if_neg hint]
      have hmpos : 0 < max s.length t.length := by
        rcases Nat.eq_zero_or_pos (max s.length t.length) with hz | hp
        · exfalso
          have hs0 : s.length = 0 := Nat.le_zero.mp (hz ▸ Nat.le_max_left _ _)
          have ht0 : t.length = 0 := Nat.le_zero.mp (hz ▸ Nat.le_max_right _ _)
          exact h ((String.ext_iff.mpr (by
            have := List.length_eq_zero.mp hs0
            have := List.length_eq_zero.mp ht0
            simp_all [String.length])))
        · exact hp
      have hole : (s.toList.filter (fun c => c ∈ t.toList)).length ≤ max s.length t.length := by
        calc (s.toList.filter (fun c => c ∈ t.toList)).length
            ≤ s.toList.length := (s.toList.filter_sublist).length_le
          _ = s.length := by rfl
          _ ≤ max s.length t.length := Nat.le_max_left _ _
      have hdiv : ((s.toList.filter (fun c => c ∈ t.toList)).length : Rat) /
          ((max s.length t.length : Nat) : Rat) ≤ 1 := by
        rw [div_le_one (by exact_mod_cast hmpos)]
        exact_mod_cast hole
      calc _ ≤ (1 : Rat) * (2/5) := by
              apply mul_le_mul_of_nonneg_right hdiv
              norm_num
        _ < 1 := by norm_num

theorem insertDesc_perm (x : TaskSuggestion) (l : List TaskSuggestion) :
    List.Perm (insertDesc x l) (x :: l) := by
  induction l with
  | nil => rfl
  | cons y ys ih =>
    rw [insertDesc]
    by_cases h : y.similarity ≤ x.similarity
    · rw [if_pos h]
    · rw [if_neg h]
      exact (ih.cons y).trans (List.Perm.swap x y ys)

theorem sortBySimilarity_perm (l : List TaskSuggestion) :
    List.Perm (sortBySimilarity l) l := by
  induction l with
  | nil => rfl
  | cons x xs ih => exact (insertDesc_perm x (sortBySimilarity xs)).trans (ih.cons x)

theorem insertDesc_pairwise {x : TaskSuggestion} {l : List TaskSuggestion}
    (h : l.Pairwise (fun a b => b.similarity ≤ a.similarity)) :
    (insertDesc x l).Pairwise (fun a b => b.similarity ≤ a.similarity) := by
  induction l with
  | nil => simp [insertDesc]
  | cons y ys ih =>
    rw [insertDesc]
    rcases List.pairwise_cons.mp h with ⟨hy, hys⟩
    by_cases hle : y.similarity ≤ x.similarity
    · rw [if_pos hle]
      refine List.pairwise_cons.mpr ⟨?_, h⟩
      intro b hb
      rcases List.mem_cons.mp hb with rfl | hb'
      · exact hle
      · exact le_trans (hy b hb') hle
    · rw [if_neg hle]
      refine List.pairwise_cons.mpr ⟨?_, ih hys⟩
      intro b hb
      rcases List.mem_cons.mp ((insertDesc_perm x ys).subset hb) with rfl | hb'
      · exact le_of_not_le hle
      · exact hy b hb'

theorem sortBySimilarity_pairwise (l : List TaskSuggestion) :
    (sortBySimilarity l).Pairwise (fun a b => b.similarity ≤ a.similarity) := by
  induction l with
  | nil => simp [sortBySimilarity]
  | cons x xs ih => exact insertDesc_pairwise ih

/-- When `l` holds exactly one copy of `e` and every other element scores
strictly below it, the stable descending sort puts `e` first. -/
theorem sortBySimilarity_unique_max {l : List TaskSuggestion} {e : TaskSuggestion}
    (he : e ∈ l) (hc : l.count e = 1)
    (hlt : ∀ x ∈ l, x ≠ e → x.similarity < e.similarity) :
    ∃ rest, sortBySimilarity l = e :: rest ∧ ∀ x ∈ rest, x ∈ l ∧ x ≠ e := by
  have hperm := sortBySimilarity_perm l
  have hpw := sortBySimilarity_pairwise l
  match hsort : sortBySimilarity l with
  | [] =>
    exfalso
    have : e ∈ ([] : List TaskSuggestion) := (hsort ▸ hperm).symm.subset he
    simp at this
  | h :: rest =>
    rw [hsort] at hperm hpw
    have hhead : h = e := by
      by_contra hne
      have hhl : h ∈ l := hperm.subset (List.mem_cons_self h rest)
      have hlt' : h.similarity < e.similarity := hlt h hhl hne
      have hemem : e ∈ h :: rest := hperm.symm.subset he
      rcases List.mem_cons.mp hemem with rfl | hrest
      · exact hne rfl
      · have := (List.pairwise_cons.mp hpw).1 e hrest
        exact absurd (lt_of_le_of_lt this hlt') (lt_irrefl _)
    subst hhead
    refine ⟨rest, rfl, ?_⟩
    have hcount : (h :: rest).count h = 1 := (hperm.count_eq h) ▸ hc
    have hrest0 : rest.count h = 0 := by
      rw [List.count_cons_self] at hcount
      omega
    intro x hx
    refine ⟨hperm.subset (List.mem_cons_of_mem h hx), ?_⟩
    intro hxe
    subst hxe
    exact absurd hrest0 (by simp [List.count_eq_zero, hx])

theorem suggestionFor_eq_some {query : String} {task : Task} {x : TaskSuggestion}
    (h : suggestionFor query task = some x) :
    x.task = task ∧
    x.similarity = calculateSimilarity (toLowerCase query) (toLowerCase task.title) ∧
    3/10 < x.similarity := by
  rw [suggestionFor] at h
  split at h
  · cases h
    exact ⟨rfl, rfl, by assumption⟩
  · cases h

theorem suggestionFor_of_gt {query : String} {task : Task}
    (h : 3/10 < calculateSimilarity (toLowerCase query) (toLowerCase task.title)) :
    suggestionFor query task =
      some { task := task,
             similarity := calculateSimilarity (toLowerCase query) (toLowerCase task.title),
             matchType := getMatchType (toLowerCase query) (toLowerCase task.title) } := by
  rw [suggestionFor]
  rw [if_pos h]

theorem suggestionFor_of_le {query : String} {task : Task}
    (h : calculateSimilarity (toLowerCase query) (toLowerCase task.title) ≤ 3/10) :
    suggestionFor query task = none := by
  rw [suggestionFor]
  rw [if_neg (not_lt.mpr h)]

/-- Everything `findTaskSuggestions` returns comes from the task list, carries
its computed similarity, and cleared the strict 0.3 threshold. -/
theorem findTaskSuggestions_mem {query : String} {tasks : List Task}
    {x : TaskSuggestion} (hx : x ∈ findTaskSuggestions query tasks) :
    x.task ∈ tasks ∧
    x.similarity = calculateSimilarity (toLowerCase query) (toLowerCase x.task.title) ∧
    3/10 < x.similarity := by
  rw [findTaskSuggestions] at hx
  have hx' := (sortBySimilarity_perm _).subset hx
  rcases List.mem_filterMap.mp hx' with ⟨a, ha, hfa⟩
  rcases suggestionFor_eq_some hfa with ⟨htask, hsim, hgt⟩
  exact ⟨htask ▸ ha, htask ▸ hsim, hgt⟩

/-- When no task clears the 0.3 threshold the suggestion list is empty. -/
theorem findTaskSuggestions_eq_nil {query : String} {tasks : List Task}
    (h : ∀ t ∈ tasks, calculateSimilarity (toLowerCase query) (toLowerCase t.title) ≤ 3/10) :
    findTaskSuggestions query tasks = [] := by
  rw [findTaskSuggestions]
  have : tasks.filterMap (suggestionFor query) = [] := by
    rw [List.filterMap_eq_nil_iff]
    intro a ha
    exact suggestionFor_of_le (h a ha)
  rw [this]
  rfl

/-- Every task that clears the threshold produces a returned suggestion. -/
theorem findTaskSuggestions_complete {query : String} {tasks : List Task}
    {t : Task} (ht : t ∈ tasks)
    (h : 3/10 < calculateSimilarity (toLowerCase query) (toLowerCase t.title)) :
    { task := t,
      similarity := calculateSimilarity (toLowerCase query) (toLowerCase t.title),
      matchType := getMatchType (toLowerCase query) (toLowerCase t.title) :
      TaskSuggestion } ∈ findTaskSuggestions query tasks := by
  rw [findTaskSuggestions]
  refine (sortBySimilarity_perm _).symm.subset ?_
  exact List.mem_filterMap.mpr ⟨t, ht, suggestionFor_of_gt h⟩

/-- The two pending-action types of `SmartTaskAssistant` (`"delete" | "modify"`). -/
inductive PendingType where
  | delete
  | modify
deriving DecidableEq, Repr

/-- The `PendingAction` interface. -/
structure PendingAction where
  type : PendingType
  taskId : String
  originalCommand : String
  newContent : Option String := none
deriving DecidableEq, Repr

/-- The `action` tag of a `SmartAssistantResponse`. -/
inductive RespAction where
  | add
  | complete
  | delete
  | modify
  | confirm
  | disambiguate
deriving DecidableEq, Repr

/-- The `SmartAssistantResponse` interface; absent optional JS fields are
modelled as `none`/`false` defaults. -/
structure SmartAssistantResponse where
  success : Bool
  message : String
  action : Option RespAction := none
  requiresConfirmation : Bool := false
  requiresDisambiguation : Bool := false
  candidateTasks : Option (List Task) := none
  taskAffected : Option Task := none
  conversational : Bool := true
deriving DecidableEq, Repr

/-- The module-level mutable state of `SmartTaskAssistant` (the static
`pendingConfirmation` and `pendingDisambiguation` slots) together with the
task store behind `StorageService`. -/
structure AssistantState where
  tasks : List Task
  pendingConfirmation : Option PendingAction := none
  pendingDisambiguation : Option (PendingAction × List TaskSuggestion) := none
deriving DecidableEq, Repr

/-- The anchored affirmative lexeme alternation
`/^(yes|y|yeah|yep|sure|ok|okay|confirm|do it)$/i` on the lowercased input. -/
def isYes (input : String) : Bool :=
  ["yes", "y", "yeah", "yep", "sure", "ok", "okay", "confirm", "do it"].contains input

/-- The anchored negative lexeme alternation
`/^(no|n|nope|cancel|stop|nevermind|never mind)$/i` on the lowercased input. -/
def isNo (input : String) : Bool :=
  ["no", "n", "nope", "cancel", "stop", "nevermind", "never mind"].contains input

/-- The re-prompt returned when a confirmation response is neither affirmative
nor negative (the bottom of `handleConfirmationResponse`). -/
def confirmReprompt : SmartAssistantResponse where
  success := false
  message := "I didn't understand your response. Please say 'yes' to confirm or 'no' to cancel."
  requiresConfirmation := true

/-- `SmartTaskAssistant.handleConfirmationResponse`: reads and clears the
pending confirmation, then branches on the yes/no classification.  Note the
source nulls the slot up front and does not restore it on an unclear
response. -/
def handleConfirmationResponse (input : String) (st : AssistantState) :
    SmartAssistantResponse × AssistantState :=
  match st.pendingConfirmation with
  | none =>
    ({ success := false,
       message := "I'm not sure what you're confirming. Could you try your command again?" },
     st)
  | some confirmation =>
    let st1 : AssistantState := { st with pendingConfirmation := none }
    if isYes input then
      match confirmation.type with
      | .delete =>
        let r := StorageService.deleteTask confirmation.taskId st1.tasks
        let st2 : AssistantState := { st1 with tasks := r.2 }
        if r.1 then
          ({ success := true, message := "Task deleted successfully. It's gone for good!",
             action := some .delete }, st2)
        else (confirmReprompt, st2)
      | .modify =>
        match confirmation.newContent with
        | some newContent =>
          if newContent = "" then (confirmReprompt, st1)
          else
            let r := StorageService.updateTask confirmation.taskId
              { title := some newContent } st1.tasks
            let st2 : AssistantState := { st1 with tasks := r.2 }
            if r.1 then
              ({ success := true,
                 message := "Perfect! I've updated the task to \"" ++ newContent ++ "\".",
                 action := some .modify }, st2)
            else (confirmReprompt, st2)
        | none => (confirmReprompt, st1)
    else if isNo input then
      ({ success := true, message := "No problem! I've cancelled that action." }, st1)
    else (confirmReprompt, st1)

/-- The shared "couldn't find a task" failure of the three target-taking
handlers. -/
def notFoundResponse (taskName : String) : SmartAssistantResponse where
  success := false
  message := "I couldn't find a task named \"" ++ taskName ++
    "\". Could you check the name and try again?"

/-- `SmartTaskAssistant.handleCompleteTask`. -/
def handleCompleteTask (taskName : String) (st : AssistantState) :
    SmartAssistantResponse × AssistantState :=
  let suggestions := findTaskSuggestions taskName st.tasks
  let multiResponse : SmartAssistantResponse :=
    { success := false,
      message := "I found " ++ toString suggestions.length ++ " tasks that match \"" ++
        taskName ++ "\". Which one did you mean?",
      requiresDisambiguation := true,
      candidateTasks := some (suggestions.map (fun s => s.task)) }
  match suggestions with
  | [] => (notFoundResponse taskName, st)
  | [s] =>
    let task := s.task
    if task.status = .completed then
      ({ success := false, message := "\"" ++ task.title ++ "\" is already completed!" }, st)
    else
      let r := StorageService.updateTaskStatus task.id .completed st.tasks
      let st2 : AssistantState := { st with tasks := r.2 }
      if r.1 then
        ({ success := true,
           message := "Excellent! I marked \"" ++ task.title ++ "\" as complete. Well done! 🎉",
           action := some .complete, taskAffected := some task }, st2)
      else (multiResponse, st2)
  | _ => (multiResponse, st)

/-- `SmartTaskAssistant.handleDeleteTask`: a unique match never touches the
store, it only records a pending delete and asks for confirmation; several
matches record a pending disambiguation. -/
def handleDeleteTask (taskName : String) (st : AssistantState) :
    SmartAssistantResponse × AssistantState :=
  let suggestions := findTaskSuggestions taskName st.tasks
  match suggestions with
  | [] => (notFoundResponse taskName, st)
  | [s] =>
    let task := s.task
    let pa : PendingAction :=
      { type := .delete, taskId := task.id, originalCommand := taskName }
    ({ success := false,
       message := "Are you sure you want to delete \"" ++ task.title ++
         "\"? Say 'yes' to confirm or 'no' to cancel.",
       requiresConfirmation := true, taskAffected := some task },
     { st with pendingConfirmation := some pa })
  | _ =>
    let paD : PendingAction := { type := .delete, taskId := "", originalCommand := taskName }
    ({ success := false,
       message := "I found " ++ toString suggestions.length ++ " tasks that match \"" ++
         taskName ++ "\". Which one do you want to delete?",
       requiresDisambiguation := true,
       candidateTasks := some (suggestions.map (fun s => s.task)) },
     { st with pendingDisambiguation := some (paD, suggestions) })

/-- `SmartTaskAssistant.handleModifyTask`. -/
def handleModifyTask (taskName : String) (newContent : String) (st : AssistantState) :
    SmartAssistantResponse × AssistantState :=
  let suggestions := findTaskSuggestions taskName st.tasks
  match suggestions with
  | [] => (notFoundResponse taskName, st)
  | [s] =>
    let task := s.task
    let pa : PendingAction :=
      { type := .modify, taskId := task.id, originalCommand := taskName,
        newContent := some newContent }
    ({ success := false,
       message := "I'll change \"" ++ task.title ++ "\" to \"" ++ newContent ++
         "\". Say 'yes' to confirm or 'no' to cancel.",
       requiresConfirmation := true, taskAffected := some task },
     { st with pendingConfirmation := some pa })
  | _ =>
    let paM : PendingAction :=
      { type := .modify, taskId := "", originalCommand := taskName,
        newContent := some newContent }
    ({ success := false,
       message := "I found " ++ toString suggestions.length ++ " tasks that match \"" ++
         taskName ++ "\". Which one do you want to modify?",
       requiresDisambiguation := true,
       candidateTasks := some (suggestions.map (fun s => s.task)) },
     { st with pendingDisambiguation := some (paM, suggestions) })

/-- The metadata extracted for an add command. -/
structure TaskMetadata where
  priority : Option TaskPriority := none
  dueDate : Option Nat := none
  tags : List String := []
deriving DecidableEq, Repr

/-- `SmartTaskAssistant.handleAddTask`: creates the task through the store
(id passed explicitly) and reports success; the source has no emptiness check
on `content`. -/
def handleAddTask (content : String) (metadata : TaskMetadata) (newId : String)
    (st : AssistantState) : SmartAssistantResponse × AssistantState :=
  let r := StorageService.addTask newId content none (metadata.priority.getD .medium)
    .pending metadata.dueDate ("voice" :: metadata.tags) st.tasks
  ({ success := true, message := "Got it! I added \"" ++ content ++ "\" to your tasks.",
     action := some .add, taskAffected := some r.1 }, { st with tasks := r.2 })

/-- Digits-to-number conversion of JS `parseInt` on a digit run. -/
def parseNatDigits (l : List Char) : Nat :=
  l.foldl (fun a c => a * 10 + (c.toNat - 48)) 0

/-- The regex match `input.match(/(\d+)/)`: the first maximal digit run. -/
def firstDigitRun (l : List Char) : List Char :=
  (l.dropWhile (fun c => !c.isDigit)).takeWhile (fun c => c.isDigit)

/-- `parseInt(numberMatch[1])` of the first digit run of the input, when the
input holds any digit. -/
def extractFirstNumber (s : String) : Option Nat :=
  let run := firstDigitRun s.toList
  if run.isEmpty then none else some (parseNatDigits run)

/-- `SmartTaskAssistant.handleDisambiguationResponse`: reads and clears the
pending disambiguation; a valid 1-based number selects that candidate, else
the input is re-matched against the candidates only; delete and modify
selections move to a pending confirmation. -/
def handleDisambiguationResponse (input : String) (st : AssistantState) :
    SmartAssistantResponse × AssistantState :=
  match st.pendingDisambiguation with
  | none =>
    ({ success := false,
       message := "I'm not sure which task you're referring to. Could you try your command again?" },
     st)
  | some disambiguation =>
    let st1 : AssistantState := { st with pendingDisambiguation := none }
    let failResponse : SmartAssistantResponse :=
      { success := false,
        message := "I didn't understand which task you meant. Please try saying the task number (like '1' or '2') or the exact task name." }
    let nameFallback : SmartAssistantResponse × AssistantState :=
      match findTaskSuggestions input (disambiguation.2.map (fun c => c.task)) with
      | [sel] =>
        let selectedTask := sel.task
        let action := { disambiguation.1 with taskId := selectedTask.id }
        match action.type with
        | .delete =>
          ({ success := false,
             message := "Are you sure you want to delete \"" ++ selectedTask.title ++
               "\"? Say 'yes' to confirm or 'no' to cancel.",
             requiresConfirmation := true, taskAffected := some selectedTask },
           { st1 with pendingConfirmation := some action })
        | .modify => (failResponse, st1)
      | _ => (failResponse, st1)
    match extractFirstNumber input with
    | some n =>
      if h : 1 ≤ n ∧ n - 1 < disambiguation.2.length then
        let selectedTask := (disambiguation.2.get ⟨n - 1, h.2⟩).task
        let action := { disambiguation.1 with taskId := selectedTask.id }
        match action.type with
        | .delete =>
          ({ success := false,
             message := "Are you sure you want to delete \"" ++ selectedTask.title ++
               "\"? Say 'yes' to confirm or 'no' to cancel.",
             requiresConfirmation := true, taskAffected := some selectedTask },
           { st1 with pendingConfirmation := some action })
        | .modify =>
          ({ success := false,
             message := "I'll change \"" ++ selectedTask.title ++ "\" to \"" ++
               (action.newContent.getD "undefined") ++
               "\". Say 'yes' to confirm or 'no' to cancel.",
             requiresConfirmation := true, taskAffected := some selectedTask },
           { st1 with pendingConfirmation := some action })
      else nameFallback
    | none => nameFallback

/-- The routing check at the top of `SmartTaskAssistant.processCommand`: the
next utterance is handled as a confirmation response exactly when the pending
confirmation slot is occupied. -/
def routedToConfirmation (st : AssistantState) : Bool :=
  st.pendingConfirmation.isSome

theorem takeWhile_all {p : Char → Bool} :
    ∀ {l : List Char}, (∀ c ∈ l, p c) → l.takeWhile p = l := by
  intro l
  induction l with
  | nil => intro _; rfl
  | cons c cs ih =>
    intro h
    rw [List.takeWhile_cons, if_pos (h c (List.mem_cons_self c cs))]
    rw [ih (fun x hx => h x (List.mem_cons_of_mem c hx))]

/-- An all-digit, non-empty input is read whole by the `/(\d+)/` extraction. -/
theorem extractFirstNumber_all_digits {s : String} (hne : s.toList ≠ [])
    (hdig : ∀ c ∈ s.toList, c.isDigit) :
    extractFirstNumber s = some (parseNatDigits s.toList) := by
  have h1 : s.toList.dropWhile (fun c => !c.isDigit) = s.toList := by
    cases hl : s.toList with
    | nil => rfl
    | cons c cs =>
      rw [List.dropWhile_cons]
      have hc : c.isDigit := hdig c (hl ▸ List.mem_cons_self c cs)
      simp [hc]
  have h2 : s.toList.takeWhile (fun c => c.isDigit) = s.toList :=
    takeWhile_all hdig
  rw [extractFirstNumber, firstDigitRun, h1, h2]
  rw [if_neg (by simpa [List.isEmpty_iff] using hne)]

end SmartTaskAssistant

namespace ExactTaskService

open SmartTaskAssistant

/-- The `type` tag of an `ExactTaskCommand`. -/
inductive CmdType where
  | add
  | delete
  | complete
  | unknown
deriving DecidableEq, Repr

/-- The `ExactTaskCommand` result record. -/
structure ExactTaskCommand where
  type : CmdType
  exactText : String
  originalCommand : String
  success : Bool
  message : String
  requiresConfirmation : Bool := false
  taskAffected : Option Task := none
deriving DecidableEq, Repr

/-- `ExactTaskService.executeAddTask`: stores the exact text as the title of a
new pending task and reports success. -/
def executeAddTask (taskText originalCommand newId : String) (tasks : List Task) :
    ExactTaskCommand × List Task :=
  let r := StorageService.addTask newId taskText none .medium .pending none
    ["exact-command"] tasks
  ({ type := .add, exactText := taskText, originalCommand := originalCommand,
     success := true, message := "Added task: \"" ++ taskText ++ "\"",
     taskAffected := some r.1 }, r.2)

/-- `ExactTaskService.executeDeleteTask`: an exact (case-insensitive) title
match only sets up a confirmation; nothing is deleted yet. -/
def executeDeleteTask (taskText originalCommand : String) (tasks : List Task) :
    ExactTaskCommand × List Task :=
  match tasks.find? (fun task => toLowerCase task.title = toLowerCase taskText) with
  | none =>
    ({ type := .delete, exactText := taskText, originalCommand := originalCommand,
       success := false,
       message := "No task found with exact text: \"" ++ taskText ++
         "\". Task names must match exactly." }, tasks)
  | some matchingTask =>
    ({ type := .delete, exactText := taskText, originalCommand := originalCommand,
       success := false,
       message := "Are you sure you want to delete: \"" ++ matchingTask.title ++ "\"?",
       requiresConfirmation := true, taskAffected := some matchingTask }, tasks)

/-- `ExactTaskService.executeCompleteTask`: fails on an already-completed
match, otherwise marks the matched task completed through the store. -/
def executeCompleteTask (taskText originalCommand : String) (tasks : List Task) :
    ExactTaskCommand × List Task :=
  match tasks.find? (fun task => toLowerCase task.title = toLowerCase taskText) with
  | none =>
    ({ type := .complete, exactText := taskText, originalCommand := originalCommand,
       success := false,
       message := "No task found with exact text: \"" ++ taskText ++
         "\". Task names must match exactly." }, tasks)
  | some matchingTask =>
    if matchingTask.status = .completed then
      ({ type := .complete, exactText := taskText, originalCommand := originalCommand,
         success := false,
         message := "Task \"" ++ matchingTask.title ++ "\" is already completed.",
         taskAffected := some matchingTask }, tasks)
    else
      let r := StorageService.updateTaskStatus matchingTask.id .completed tasks
      if r.1 then
        ({ type := .complete, exactText := taskText, originalCommand := originalCommand,
           success := true, message := "Completed task: \"" ++ matchingTask.title ++ "\"",
           taskAffected := some matchingTask }, r.2)
      else
        ({ type := .complete, exactText := taskText, originalCommand := originalCommand,
           success := false, message := "Failed to complete task. Please try again.",
           taskAffected := some matchingTask }, r.2)

/-- `ExactTaskService.confirmDeleteTask`: performs the delete after an
affirmative confirmation. -/
def confirmDeleteTask (taskId : String) (tasks : List Task) :
    ExactTaskCommand × List Task :=
  match StorageService.getTaskById taskId tasks with
  | none =>
    ({ type := .delete, exactText := "", originalCommand := "", success := false,
       message := "Task not found." }, tasks)
  | some task =>
    let r := StorageService.deleteTask taskId tasks
    if r.1 then
      ({ type := .delete, exactText := task.title, originalCommand := "",
         success := true, message := "Deleted task: \"" ++ task.title ++ "\"",
         taskAffected := some task }, r.2)
    else
      ({ type := .delete, exactText := "", originalCommand := "", success := false,
         message := "Failed to delete task. Please try again." }, r.2)

end ExactTaskService

namespace ExactVoiceProcessor

open SmartTaskAssistant

/-- JS `s.trim()`. -/
def trimStr (s : String) : String :=
  String.mk
    (((s.toList.dropWhile (fun c => c.isWhitespace)).reverse.dropWhile
      (fun c => c.isWhitespace)).reverse)

/-- The static `pendingConfirmation` slot of `ExactVoiceProcessor`. -/
structure PendingConfirmation where
  taskId : String
  taskTitle : String
deriving DecidableEq, Repr

/-- Module state: the pending confirmation slot plus the task store. -/
structure VPState where
  tasks : List Task
  pendingConfirmation : Option PendingConfirmation := none
deriving DecidableEq, Repr

/-- The `VoiceProcessingResult` record. -/
structure VoiceProcessingResult where
  success : Bool
  message : String
  command : Option ExactTaskService.ExactTaskCommand := none
  requiresConfirmation : Bool := false
  taskId : Option String := none
deriving DecidableEq, Repr

/-- `ExactVoiceProcessor.isAffirmativeResponse`. -/
def isAffirmativeResponse (response : String) : Bool :=
  ["yes", "y", "yeah", "yep", "yup", "sure", "ok", "okay", "confirm", "delete",
   "do it", "go ahead", "proceed"].contains response

/-- `ExactVoiceProcessor.isNegativeResponse`. -/
def isNegativeResponse (response : String) : Bool :=
  ["no", "n", "nope", "cancel", "stop", "abort", "nevermind", "never mind",
   "don't", "dont", "wait"].contains response

/-- `ExactVoiceProcessor.handleConfirmationResponse`: clears the slot, executes
on yes, cancels on no, and explicitly RESTORES the pending confirmation on an
unclear response before re-prompting. -/
def handleConfirmationResponse (response : String) (st : VPState) :
    VoiceProcessingResult × VPState :=
  match st.pendingConfirmation with
  | none => ({ success := false, message := "No pending confirmation found." }, st)
  | some confirmation =>
    let lowerResponse := trimStr (toLowerCase response)
    let st1 : VPState := { st with pendingConfirmation := none }
    if isAffirmativeResponse lowerResponse then
      let r := ExactTaskService.confirmDeleteTask confirmation.taskId st1.tasks
      ({ success := r.1.success, message := r.1.message, command := some r.1 },
       { st1 with tasks := r.2 })
    else if isNegativeResponse lowerResponse then
      ({ success := true, message := "Delete cancelled." }, st1)
    else
      ({ success := false,
         message := "Please say \"yes\" to delete \"" ++ confirmation.taskTitle ++
           "\" or \"no\" to cancel.",
         requiresConfirmation := true, taskId := some confirmation.taskId },
       { st1 with pendingConfirmation := some confirmation })

end ExactVoiceProcessor

namespace SmartCommandProcessor

open SmartTaskAssistant

/-- The `action` values of the smart command processor. -/
inductive IntentAction where
  | add
  | complete
  | delete
  | modify
  | list
  | unknown
deriving DecidableEq, Repr

/-- The `ParsedIntent` record of the smart command processor. -/
structure ParsedIntent where
  action : IntentAction
  content : String
  confidence : Rat
  keywords : List String := []
deriving DecidableEq, Repr

/-- The `SmartCommandResult` record; absent JS fields default to
`none`/`false`. -/
structure SmartCommandResult where
  success : Bool
  message : String
  action : Option IntentAction := none
  requiresConfirmation : Bool := false
  taskAffected : Option Task := none
  taskContent : Option String := none
  confidence : Rat
  createEditableTask : Bool := false
  spokenReply : Option String := none
deriving DecidableEq, Repr

/-- `SmartCommandProcessor.executeAddTask`: rejects empty content with a
"please specify" prompt; otherwise reports success carrying the content and
defers the actual creation to the editable-card flow (no store call). -/
def executeAddTask (intent : ParsedIntent) : SmartCommandResult :=
  if intent.content = "" then
    { success := false, message := "Please specify what task to add.",
      confidence := intent.confidence,
      spokenReply := some "What task would you like me to add?" }
  else
    { success := true, message := "Creating task: \"" ++ intent.content ++ "\"",
      action := some .add, taskContent := some intent.content,
      confidence := intent.confidence, createEditableTask := true,
      spokenReply := some ("Added task: " ++ intent.content) }

/-- The `${i + 1}. ${t.title}` display list joined with ", ". -/
def numberedTaskList (ts : List Task) : String :=
  String.intercalate ", " (ts.enum.map (fun p => toString (p.1 + 1) ++ ". " ++ p.2.title))

/-- `SmartCommandProcessor.executeListTasks`: filters out completed tasks,
shows up to five with 1-based numbers; with no pending tasks (the store empty
or not) it reports "You have no pending tasks. Great job!". -/
def executeListTasks (intent : ParsedIntent) (tasks : List Task) : SmartCommandResult :=
  let pendingTasks := tasks.filter (fun t => t.status ≠ .completed)
  if pendingTasks.length = 0 then
    { success := true, message := "You have no pending tasks. Great job!",
      action := some .list, confidence := intent.confidence,
      spokenReply := some "You have no pending tasks. You're all caught up!" }
  else
    let taskList := numberedTaskList (pendingTasks.take 5)
    { success := true, message := "Your tasks: " ++ taskList,
      action := some .list, confidence := intent.confidence,
      spokenReply := some ("You have " ++ toString pendingTasks.length ++ " tasks: " ++
        taskList) }

end SmartCommandProcessor

section Helpers

open SmartTaskAssistant

theorem map_eq_self_of {α : Type} {f : α → α} :
    ∀ {l : List α}, (∀ x ∈ l, f x = x) → l.map f = l := by
  intro l
  induction l with
  | nil => intro _; rfl
  | cons a as ih =>
    intro h
    rw [List.map_cons, h a (List.mem_cons_self a as),
      ih (fun x hx => h x (List.mem_cons_of_mem a hx))]

theorem map_id_nodup_split {l₁ : List Task} {t : Task} {l₂ : List Task}
    (hnd : ((l₁ ++ t :: l₂).map (fun x => x.id)).Nodup) :
    (∀ x ∈ l₁, x.id ≠ t.id) ∧ (∀ x ∈ l₂, x.id ≠ t.id) := by
  rw [List.map_append, List.map_cons] at hnd
  rcases List.nodup_append.mp hnd with ⟨_, hnd₂, hdisj⟩
  constructor
  · intro x hx hEq
    exact (hdisj (List.mem_map_of_mem _ hx)) (hEq ▸ List.mem_cons_self _ _)
  · intro x hx hEq
    exact (List.nodup_cons.mp hnd₂).1 (hEq ▸ List.mem_map_of_mem _ hx)

/-- Under unique ids, marking a stored task completed rewrites exactly that
task. -/
theorem updateTaskStatus_mem_nodup {tasks : List Task} {t : Task}
    (hmem : t ∈ tasks) (hnd : (tasks.map (fun x => x.id)).Nodup) (status : TaskStatus) :
    StorageService.updateTaskStatus t.id status tasks =
      (true, tasks.map (fun x => if x.id = t.id then { x with status := status } else x)) := by
  rcases List.append_of_mem hmem with ⟨l₁, l₂, rfl⟩
  rcases map_id_nodup_split hnd with ⟨h₁, h₂⟩
  rw [StorageService.updateTaskStatus, StorageService.updateTask_found l₁ t l₂ rfl h₁]
  have e₁ : l₁.map (fun x => if x.id = t.id then { x with status := status } else x) = l₁ :=
    map_eq_self_of (fun x hx => by rw [if_neg (h₁ x hx)])
  have e₂ : l₂.map (fun x => if x.id = t.id then { x with status := status } else x) = l₂ :=
    map_eq_self_of (fun x hx => by rw [if_neg (h₂ x hx)])
  rw [List.map_append, List.map_cons, e₁, e₂, if_pos rfl]
  rfl

/-- Under unique ids, deleting a stored task removes exactly that task. -/
theorem deleteTask_mem_nodup {tasks : List Task} {t : Task} {l₁ l₂ : List Task}
    (hsplit : tasks = l₁ ++ t :: l₂) (hnd : (tasks.map (fun x => x.id)).Nodup) :
    StorageService.deleteTask t.id tasks = (true, l₁ ++ l₂) := by
  subst hsplit
  rcases map_id_nodup_split hnd with ⟨h₁, h₂⟩
  rw [StorageService.deleteTask_found t (by simp) rfl]
  congr 1
  rw [List.filter_append, List.filter_cons]
  have e₁ : l₁.filter (fun x => x.id ≠ t.id) = l₁ :=
    List.filter_eq_self.mpr (fun x hx => by simp [h₁ x hx])
  have e₂ : l₂.filter (fun x => x.id ≠ t.id) = l₂ :=
    List.filter_eq_self.mpr (fun x hx => by simp [h₂ x hx])
  rw [e₁, e₂]
  simp

theorem isNo_not_isYes {s : String} (h : isNo s = true) : isYes s = false := by
  have hmem : s ∈ ["no", "n", "nope", "cancel", "stop", "nevermind", "never mind"] := by
    simpa [isNo] using h
  fin_cases hmem <;> rfl

/-- The exact single-candidate evaluation: one task whose lowercased title is
the lowercased query yields exactly its score-1 suggestion. -/
theorem findTaskSuggestions_singleton_exact {query : String} {t : Task}
    (h : toLowerCase t.title = toLowerCase query) :
    findTaskSuggestions query [t] =
      [{ task := t, similarity := 1, matchType := .exact }] := by
  have hsim : calculateSimilarity (toLowerCase query) (toLowerCase t.title) = 1 :=
    calculateSimilarity_exact h.symm
  have hmt : getMatchType (toLowerCase query) (toLowerCase t.title) = .exact := by
    rw [getMatchType, if_pos h.symm]
  have hsug : suggestionFor query t =
      some { task := t, similarity := 1, matchType := .exact } := by
    rw [suggestionFor, hsim, if_pos (by norm_num : (3 : Rat)/10 < 1), hmt]
  simp [findTaskSuggestions, hsug, sortBySimilarity, insertDesc]

end Helpers

namespace Fixtures

/-- The mock store of the voice-command test-suite. -/
def tBuy : Task :=
  { id := "1", title := "Buy groceries", priority := .medium, status := .pending,
    tags := ["personal"] }

def tReport : Task :=
  { id := "2", title := "Review quarterly report", priority := .high, status := .pending,
    tags := ["work"] }

def tDentist : Task :=
  { id := "3", title := "Call dentist", priority := .low, status := .completed,
    tags := ["health"] }

/-- The two candidates of the disambiguation scenario. -/
def tArjun : Task :=
  { id := "4", title := "Meeting with Arjun", priority := .medium, status := .pending }

def tPrep : Task :=
  { id := "5", title := "Team meeting prep", priority := .medium, status := .pending }

end Fixtures

section ClaimC10

/-- C10: the single-task store mutations touch only the task whose id matches:
`updateTask` rewrites exactly the first matching task by merging exactly the
present fields, `deleteTask` (under unique ids) removes exactly that task,
other tasks keep their values and relative order, and with no matching id both
operations return `false` and leave the stored list completely unchanged. -/
theorem c10_store_frame (tasks : List Task) (taskId : String)
    (u : StorageService.TaskUpdates) :
    ((∀ t ∈ tasks, t.id ≠ taskId) →
      StorageService.updateTask taskId u tasks = (false, tasks) ∧
      StorageService.deleteTask taskId tasks = (false, tasks)) ∧
    (∀ l₁ t l₂, tasks = l₁ ++ t :: l₂ → t.id = taskId → (∀ x ∈ l₁, x.id ≠ taskId) →
      StorageService.updateTask taskId u tasks =
        (true, l₁ ++ StorageService.applyUpdates u t :: l₂)) ∧
    ((tasks.map (fun x => x.id)).Nodup →
      ∀ l₁ t l₂, tasks = l₁ ++ t :: l₂ → t.id = taskId →
        StorageService.deleteTask taskId tasks = (true, l₁ ++ l₂)) ∧
    (∀ t : Task,
      (u.title = none → (StorageService.applyUpdates u t).title = t.title) ∧
      (u.status = none → (StorageService.applyUpdates u t).status = t.status) ∧
      (u.priority = none → (StorageService.applyUpdates u t).priority = t.priority) ∧
      (u.description = none → (StorageService.applyUpdates u t).description = t.description) ∧
      (u.dueDate = none → (StorageService.applyUpdates u t).dueDate = t.dueDate) ∧
      (u.tags = none → (StorageService.applyUpdates u t).tags = t.tags) ∧
      (u.id = none → (StorageService.applyUpdates u t).id = t.id) ∧
      (∀ s, u.title = some s → (StorageService.applyUpdates u t).title = s) ∧
      (∀ s, u.status = some s → (StorageService.applyUpdates u t).status = s)) := by
  refine ⟨?_, ?_, ?_, ?_⟩
  · intro h
    exact ⟨StorageService.updateTask_not_found h, StorageService.deleteTask_not_found h⟩
  · intro l₁ t l₂ hsplit ht hl₁
    subst hsplit
    exact StorageService.updateTask_found l₁ t l₂ ht hl₁
  · intro hnd l₁ t l₂ hsplit ht
    subst ht
    exact deleteTask_mem_nodup hsplit hnd
  · intro t
    refine ⟨?_, ?_, ?_, ?_, ?_, ?_, ?_, ?_, ?_⟩ <;>
      first
        | (intro h; simp [StorageService.applyUpdates, h])
        | (intro s h; simp [StorageService.applyUpdates, h])

/-- C10 witness at a concrete store. -/
theorem c10_store_frame_witness :
    StorageService.updateTask "2" { title := some "Edited" } [Fixtures.tBuy, Fixtures.tReport] =
      (true, [Fixtures.tBuy,
        StorageService.applyUpdates { title := some "Edited" } Fixtures.tReport]) ∧
    StorageService.deleteTask "2" [Fixtures.tBuy, Fixtures.tReport] =
      (true, [Fixtures.tBuy]) ∧
    StorageService.updateTask "9" { title := some "Edited" } [Fixtures.tBuy, Fixtures.tReport] =
      (false, [Fixtures.tBuy, Fixtures.tReport]) ∧
    StorageService.deleteTask "9" [Fixtures.tBuy, Fixtures.tReport] =
      (false, [Fixtures.tBuy, Fixtures.tReport]) := by
  have h := c10_store_frame [Fixtures.tBuy, Fixtures.tReport] "2"
    { title := some "Edited" }
  have h9 := c10_store_frame [Fixtures.tBuy, Fixtures.tReport] "9"
    { title := some "Edited" }
  refine ⟨?_, ?_, ?_, ?_⟩
  · exact h.2.1 [Fixtures.tBuy] Fixtures.tReport [] rfl rfl (by decide)
  · simpa using h.2.2.1 (by decide) [Fixtures.tBuy] Fixtures.tReport [] rfl rfl
  · exact (h9.1 (by decide)).1
  · exact (h9.1 (by decide)).2

end ClaimC10

section ClaimC3

open SmartTaskAssistant

/-- C3: with any pending confirmation (delete or modify alike) a negative
response mutates nothing in the store, clears the pending confirmation, and
returns the cancellation result with success = true. -/
theorem c3_negative_cancels (st : AssistantState) (c : PendingAction) (input : String)
    (hp : st.pendingConfirmation = some c) (hno : isNo input = true) :
    (handleConfirmationResponse input st).1.success = true ∧
    (handleConfirmationResponse input st).1.message =
      "No problem! I've cancelled that action." ∧
    (handleConfirmationResponse input st).2.tasks = st.tasks ∧
    (handleConfirmationResponse input st).2.pendingConfirmation = none ∧
    (handleConfirmationResponse input st).2.pendingDisambiguation =
      st.pendingDisambiguation := by
  have hyes : isYes input = false := isNo_not_isYes hno
  simp [handleConfirmationResponse, hp, hyes, hno]

/-- C3 witness: a pending delete and a pending modify, each cancelled by
"no". -/
theorem c3_negative_cancels_witness :
    (let st : AssistantState :=
      { tasks := [Fixtures.tBuy],
        pendingConfirmation :=
          some { type := .delete, taskId := "1", originalCommand := "buy groceries" } }
     (handleConfirmationResponse "no" st).1.success = true ∧
     (handleConfirmationResponse "no" st).2.tasks = st.tasks ∧
     (handleConfirmationResponse "no" st).2.pendingConfirmation = none) ∧
    (let st : AssistantState :=
      { tasks := [Fixtures.tBuy],
        pendingConfirmation :=
          some { type := .modify, taskId := "1", originalCommand := "buy groceries",
                 newContent := some "Buy milk" } }
     (handleConfirmationResponse "cancel" st).1.success = true ∧
     (handleConfirmationResponse "cancel" st).2.tasks = st.tasks ∧
     (handleConfirmationResponse "cancel" st).2.pendingConfirmation = none) := by
  constructor
  · have h := c3_negative_cancels
      { tasks := [Fixtures.tBuy],
        pendingConfirmation :=
          some { type := .delete, taskId := "1", originalCommand := "buy groceries" } }
      { type := .delete, taskId := "1", originalCommand := "buy groceries" }
      "no" rfl (by decide)
    exact ⟨h.1, h.2.2.1, h.2.2.2.1⟩
  · have h := c3_negative_cancels
      { tasks := [Fixtures.tBuy],
        pendingConfirmation :=
          some { type := .modify, taskId := "1", originalCommand := "buy groceries",
                 newContent := some "Buy milk" } }
      { type := .modify, taskId := "1", originalCommand := "buy groceries",
        newContent := some "Buy milk" }
      "cancel" rfl (by decide)
    exact ⟨h.1, h.2.2.1, h.2.2.2.1⟩

end ClaimC3

section ClaimC1

open SmartTaskAssistant

/-- C1, evaluated at the failing input: `SmartTaskAssistant`'s confirmation
handler answers the unclassifiable response "maybe" with a re-prompt carrying
requiresConfirmation = true and no store change, but the pending confirmation
slot has been nulled and never restored, so the next utterance is no longer
routed to confirmation handling.  The sibling `ExactVoiceProcessor` handler
does restore the same pending confirmation, as the spec requires. -/
theorem c1_unclear_confirmation_drops_pending :
    (let st : AssistantState :=
      { tasks := [Fixtures.tBuy],
        pendingConfirmation :=
          some { type := .delete, taskId := "1", originalCommand := "buy groceries" } }
     (handleConfirmationResponse "maybe" st).1.requiresConfirmation = true ∧
     (handleConfirmationResponse "maybe" st).1.success = false ∧
     (handleConfirmationResponse "maybe" st).2.tasks = st.tasks ∧
     (handleConfirmationResponse "maybe" st).2.pendingConfirmation = none ∧
     routedToConfirmation (handleConfirmationResponse "maybe" st).2 = false) ∧
    (let vst : ExactVoiceProcessor.VPState :=
      { tasks := [Fixtures.tBuy],
        pendingConfirmation := some { taskId := "1", taskTitle := "Buy groceries" } }
     (ExactVoiceProcessor.handleConfirmationResponse "maybe" vst).1.requiresConfirmation
        = true ∧
     (ExactVoiceProcessor.handleConfirmationResponse "maybe" vst).1.success = false ∧
     (ExactVoiceProcessor.handleConfirmationResponse "maybe" vst).2 = vst) := by
  constructor
  · refine ⟨rfl, rfl, rfl, rfl, rfl⟩
  · refine ⟨rfl, rfl, rfl⟩

end ClaimC1

section ClaimC2

open SmartTaskAssistant

/-- C2: when the target of a delete command matches exactly one task, the
delete turn mutates nothing: it only records the pending delete action and
returns requiresConfirmation = true; the matched task is removed from the
store only by the affirmative follow-up turn, which returns success = true.
Hence no task is deleted in the same turn as the delete command. -/
theorem c2_delete_two_phase (st : AssistantState) (taskName : String)
    (sug : TaskSuggestion)
    (hone : findTaskSuggestions taskName st.tasks = [sug]) :
    (handleDeleteTask taskName st).1.requiresConfirmation = true ∧
    (handleDeleteTask taskName st).1.success = false ∧
    (handleDeleteTask taskName st).1.taskAffected = some sug.task ∧
    (handleDeleteTask taskName st).2.tasks = st.tasks ∧
    (handleDeleteTask taskName st).2.pendingConfirmation =
      some { type := .delete, taskId := sug.task.id, originalCommand := taskName } ∧
    routedToConfirmation (handleDeleteTask taskName st).2 = true ∧
    (handleConfirmationResponse "yes" (handleDeleteTask taskName st).2).1.success = true ∧
    (handleConfirmationResponse "yes" (handleDeleteTask taskName st).2).1.action =
      some .delete ∧
    (handleConfirmationResponse "yes" (handleDeleteTask taskName st).2).2.tasks =
      st.tasks.filter (fun x => x.id ≠ sug.task.id) ∧
    (handleConfirmationResponse "yes" (handleDeleteTask taskName st).2).2.pendingConfirmation
      = none := by
  have hmem : sug.task ∈ st.tasks :=
    (findTaskSuggestions_mem (hone ▸ List.mem_cons_self sug [])).1
  have hdel := StorageService.deleteTask_found sug.task hmem rfl
  have h1 : handleDeleteTask taskName st =
      ({ success := false,
         message := "Are you sure you want to delete \"" ++ sug.task.title ++
           "\"? Say 'yes' to confirm or 'no' to cancel.",
         requiresConfirmation := true, taskAffected := some sug.task },
       { st with pendingConfirmation := some { type := .delete, taskId := sug.task.id, originalCommand := taskName } }) := by
    rw [handleDeleteTask]
    simp only [hone]
  rw [h1]
  refine ⟨rfl, rfl, rfl, rfl, rfl, rfl, ?_⟩
  have h2 : handleConfirmationResponse "yes"
      { st with pendingConfirmation := some { type := .delete, taskId := sug.task.id, originalCommand := taskName } } =
      ({ success := true, message := "Task deleted successfully. It's gone for good!",
         action := some .delete },
       { st with pendingConfirmation := none,
                 tasks := st.tasks.filter (fun x => x.id ≠ sug.task.id) }) := by
    rw [handleConfirmationResponse]
    simp only [hdel]
    rfl
  rw [h2]
  exact ⟨rfl, rfl, rfl, rfl⟩

/-- C2 witness: the spec scenario, store = [Buy groceries]. -/
theorem c2_delete_two_phase_witness :
    (handleDeleteTask "Buy groceries" { tasks := [Fixtures.tBuy] }).1.requiresConfirmation
      = true ∧
    (handleDeleteTask "Buy groceries" { tasks := [Fixtures.tBuy] }).2.tasks =
      [Fixtures.tBuy] ∧
    (handleConfirmationResponse "yes"
      (handleDeleteTask "Buy groceries" { tasks := [Fixtures.tBuy] }).2).1.success = true ∧
    (handleConfirmationResponse "yes"
      (handleDeleteTask "Buy groceries" { tasks := [Fixtures.tBuy] }).2).2.tasks = [] := by
  have hone : findTaskSuggestions "Buy groceries" [Fixtures.tBuy] =
      [{ task := Fixtures.tBuy, similarity := 1, matchType := .exact }] :=
    findTaskSuggestions_singleton_exact (by decide)
  have h := c2_delete_two_phase { tasks := [Fixtures.tBuy] } "Buy groceries"
    { task := Fixtures.tBuy, similarity := 1, matchType := .exact } hone
  exact ⟨h.1, h.2.2.2.1, h.2.2.2.2.2.2.1, by
    rw [h.2.2.2.2.2.2.2.2.1]
    decide⟩

end ClaimC2

section ClaimC6

open SmartTaskAssistant

/-- C6: with a pending disambiguation over N ≥ 2 candidates — whatever its
pending action type, delete or modify — an utterance that is exactly the
digit string of k (1 ≤ k ≤ N) deterministically selects candidate k-1
(0-based): the selection becomes a pending confirmation whose taskId is
exactly that candidate's id (so for a pending delete action it transitions to
a confirmation for exactly that selected candidate, not any other), with the
store untouched. -/
theorem c6_digit_selection (st : AssistantState) (action : PendingAction)
    (cands : List TaskSuggestion) (input : String) (k : Nat)
    (hp : st.pendingDisambiguation = some (action, cands))
    (hN : 2 ≤ cands.length) (hk1 : 1 ≤ k) (hkN : k ≤ cands.length)
    (hne : input.toList ≠ []) (hdig : ∀ c ∈ input.toList, c.isDigit)
    (hval : parseNatDigits input.toList = k) :
    ∃ sel, cands.get? (k - 1) = some sel ∧
      (handleDisambiguationResponse input st).1.requiresConfirmation = true ∧
      (handleDisambiguationResponse input st).1.success = false ∧
      (handleDisambiguationResponse input st).1.taskAffected = some sel.task ∧
      (handleDisambiguationResponse input st).2.pendingConfirmation =
        some { action with taskId := sel.task.id } ∧
      (handleDisambiguationResponse input st).2.pendingDisambiguation = none ∧
      (handleDisambiguationResponse input st).2.tasks = st.tasks := by
  have hlt : k - 1 < cands.length := by omega
  have hnum : extractFirstNumber input = some k := by
    rw [extractFirstNumber_all_digits hne hdig, hval]
  refine ⟨cands.get ⟨k - 1, hlt⟩, (List.get?_eq_get hlt), ?_⟩
  cases htype : action.type with
  | delete =>
    have hred : handleDisambiguationResponse input st =
        ({ success := false,
           message := "Are you sure you want to delete \"" ++
             (cands.get ⟨k - 1, hlt⟩).task.title ++
             "\"? Say 'yes' to confirm or 'no' to cancel.",
           requiresConfirmation := true,
           taskAffected := some (cands.get ⟨k - 1, hlt⟩).task },
         { st with pendingDisambiguation := none,
                   pendingConfirmation :=
                     some { action with taskId := (cands.get ⟨k - 1, hlt⟩).task.id } }) := by
      rw [handleDisambiguationResponse]
      simp only [hp, hnum]
      rw [dif_pos (⟨hk1, hlt⟩ : 1 ≤ k ∧ k - 1 < cands.length)]
      simp only [htype]
    rw [hred]
    exact ⟨rfl, rfl, rfl, by rw [htype], rfl, rfl⟩
  | modify =>
    have hred : handleDisambiguationResponse input st =
        ({ success := false,
           message := "I'll change \"" ++ (cands.get ⟨k - 1, hlt⟩).task.title ++
             "\" to \"" ++ (action.newContent.getD "undefined") ++
             "\". Say 'yes' to confirm or 'no' to cancel.",
           requiresConfirmation := true,
           taskAffected := some (cands.get ⟨k - 1, hlt⟩).task },
         { st with pendingDisambiguation := none,
                   pendingConfirmation :=
                     some { action with taskId := (cands.get ⟨k - 1, hlt⟩).task.id } }) := by
      rw [handleDisambiguationResponse]
      simp only [hp, hnum]
      rw [dif_pos (⟨hk1, hlt⟩ : 1 ≤ k ∧ k - 1 < cands.length)]
      simp only [htype]
    rw [hred]
    exact ⟨rfl, rfl, rfl, by rw [htype], rfl, rfl⟩

/-- The candidate list of the C6 witness: the two meeting tasks of the spec
scenario. -/
def c6Cands : List TaskSuggestion :=
  [{ task := Fixtures.tArjun, similarity := 1, matchType := .exact },
   { task := Fixtures.tPrep, similarity := 1, matchType := .exact }]

/-- The pending delete action of the C6 witness. -/
def c6DeleteAction : PendingAction :=
  { type := .delete, taskId := "", originalCommand := "the meeting task" }

/-- The pending modify action of the C6 witness. -/
def c6ModifyAction : PendingAction :=
  { type := .modify, taskId := "", originalCommand := "the meeting task",
    newContent := some "Client meeting" }

/-- C6 witness state: a pending delete disambiguation over the two meeting
tasks. -/
def c6DeleteState : AssistantState :=
  { tasks := [Fixtures.tArjun, Fixtures.tPrep],
    pendingDisambiguation := some (c6DeleteAction, c6Cands) }

/-- C6 witness state: a pending modify disambiguation over the same
candidates. -/
def c6ModifyState : AssistantState :=
  { tasks := [Fixtures.tArjun, Fixtures.tPrep],
    pendingDisambiguation := some (c6ModifyAction, c6Cands) }

/-- C6 witness: "1" against the pending delete picks the first candidate, and
"2" against the pending modify picks the second. -/
theorem c6_digit_selection_witness :
    (∃ sel, c6Cands.get? 0 = some sel ∧
      (handleDisambiguationResponse "1" c6DeleteState).1.requiresConfirmation = true ∧
      (handleDisambiguationResponse "1" c6DeleteState).1.success = false ∧
      (handleDisambiguationResponse "1" c6DeleteState).1.taskAffected = some sel.task ∧
      (handleDisambiguationResponse "1" c6DeleteState).2.pendingConfirmation =
        some { c6DeleteAction with taskId := sel.task.id } ∧
      (handleDisambiguationResponse "1" c6DeleteState).2.pendingDisambiguation = none ∧
      (handleDisambiguationResponse "1" c6DeleteState).2.tasks = c6DeleteState.tasks) ∧
    (∃ sel, c6Cands.get? 1 = some sel ∧
      (handleDisambiguationResponse "2" c6ModifyState).1.requiresConfirmation = true ∧
      (handleDisambiguationResponse "2" c6ModifyState).1.success = false ∧
      (handleDisambiguationResponse "2" c6ModifyState).1.taskAffected = some sel.task ∧
      (handleDisambiguationResponse "2" c6ModifyState).2.pendingConfirmation =
        some { c6ModifyAction with taskId := sel.task.id } ∧
      (handleDisambiguationResponse "2" c6ModifyState).2.pendingDisambiguation = none ∧
      (handleDisambiguationResponse "2" c6ModifyState).2.tasks = c6ModifyState.tasks) := by
  constructor
  · exact c6_digit_selection c6DeleteState c6DeleteAction c6Cands "1" 1 rfl (by decide)
      (by decide) (by decide) (by decide) (by decide) (by decide)
  · exact c6_digit_selection c6ModifyState c6ModifyAction c6Cands "2" 2 rfl (by decide)
      (by decide) (by decide) (by decide) (by decide) (by decide)

end ClaimC6

section ClaimC7

open SmartTaskAssistant

/-- The task created by `add("Buy milk")` in the round-trip scenario. -/
def buyMilkTask (newId : String) : Task :=
  { id := newId, title := "Buy milk", priority := .medium, status := .pending,
    tags := ["exact-command"] }

/-- C7: a complete command on an already-completed matched task fails with the
"already completed" message and mutates nothing; on a non-completed matched
task it marks exactly that task completed and succeeds with the task.  The
same holds for the smart assistant's complete handler, and the round trip
add("Buy milk") → complete → second complete behaves as specified. -/
theorem c7_complete_semantics (tasks : List Task) (q oc : String) (t : Task)
    (hfind : tasks.find? (fun task => toLowerCase task.title = toLowerCase q) = some t) :
    (t.status = .completed →
      ExactTaskService.executeCompleteTask q oc tasks =
        ({ type := .complete, exactText := q, originalCommand := oc, success := false,
           message := "Task \"" ++ t.title ++ "\" is already completed.",
           taskAffected := some t }, tasks)) ∧
    (t.status ≠ .completed → (tasks.map (fun x => x.id)).Nodup →
      (ExactTaskService.executeCompleteTask q oc tasks).1.success = true ∧
      (ExactTaskService.executeCompleteTask q oc tasks).1.taskAffected = some t ∧
      (ExactTaskService.executeCompleteTask q oc tasks).2 =
        tasks.map (fun x => if x.id = t.id then { x with status := .completed } else x)) ∧
    (∀ (st : AssistantState) (taskName : String) (s : TaskSuggestion),
      findTaskSuggestions taskName st.tasks = [s] →
      s.task.status = .completed →
      handleCompleteTask taskName st =
        ({ success := false, message := "\"" ++ s.task.title ++ "\" is already completed!" },
         st)) ∧
    (∀ (st : AssistantState) (taskName : String) (s : TaskSuggestion),
      findTaskSuggestions taskName st.tasks = [s] →
      s.task.status ≠ .completed → (st.tasks.map (fun x => x.id)).Nodup →
      (handleCompleteTask taskName st).1.success = true ∧
      (handleCompleteTask taskName st).1.taskAffected = some s.task ∧
      (handleCompleteTask taskName st).2.tasks =
        st.tasks.map (fun x => if x.id = s.task.id then { x with status := .completed } else x)) ∧
    (∀ newId : String,
      (ExactTaskService.executeCompleteTask "Buy milk" oc
        (ExactTaskService.executeAddTask "Buy milk" oc newId tasks).2).1.success = true ∧
      (ExactTaskService.executeCompleteTask "Buy milk" oc
        (ExactTaskService.executeAddTask "Buy milk" oc newId tasks).2).2 =
        { buyMilkTask newId with status := .completed } :: tasks ∧
      (ExactTaskService.executeCompleteTask "Buy milk" oc
        ({ buyMilkTask newId with status := .completed } :: tasks)).1.success = false ∧
      (ExactTaskService.executeCompleteTask "Buy milk" oc
        ({ buyMilkTask newId with status := .completed } :: tasks)).1.message =
        "Task \"Buy milk\" is already completed." ∧
      (ExactTaskService.executeCompleteTask "Buy milk" oc
        ({ buyMilkTask newId with status := .completed } :: tasks)).2 =
        { buyMilkTask newId with status := .completed } :: tasks) := by
  have hmem : t ∈ tasks := List.mem_of_find?_eq_some hfind
  refine ⟨?_, ?_, ?_, ?_, ?_⟩
  · intro hstat
    rw [ExactTaskService.executeCompleteTask]
    simp only [hfind]
    rw [if_pos hstat]
  · intro hstat hnd
    rw [ExactTaskService.executeCompleteTask]
    simp only [hfind]
    rw [if_neg hstat, updateTaskStatus_mem_nodup hmem hnd]
    exact ⟨rfl, rfl, rfl⟩
  · intro st taskName s hsug hstat
    rw [handleCompleteTask]
    simp only [hsug]
    rw [if_pos hstat]
  · intro st taskName s hsug hstat hnd
    have hsmem : s.task ∈ st.tasks :=
      (findTaskSuggestions_mem (hsug ▸ List.mem_cons_self s [])).1
    rw [handleCompleteTask]
    simp only [hsug]
    rw [if_neg hstat, updateTaskStatus_mem_nodup hsmem hnd]
    exact ⟨rfl, rfl, rfl⟩
  · intro newId
    have hadd : (ExactTaskService.executeAddTask "Buy milk" oc newId tasks).2 =
        buyMilkTask newId :: tasks := rfl
    have hp1 : (fun task => decide (toLowerCase task.title = toLowerCase "Buy milk"))
        (buyMilkTask newId) = true := rfl
    have hfind1 : (buyMilkTask newId :: tasks).find?
        (fun task => toLowerCase task.title = toLowerCase "Buy milk") =
        some (buyMilkTask newId) := List.find?_cons_of_pos _ hp1
    have hupd : StorageService.updateTaskStatus (buyMilkTask newId).id .completed
        (buyMilkTask newId :: tasks) =
        (true, { buyMilkTask newId with status := .completed } :: tasks) := by
      simp [StorageService.updateTaskStatus, StorageService.updateTask,
        StorageService.applyUpdates, buyMilkTask]
    have hr2 : ExactTaskService.executeCompleteTask "Buy milk" oc
        (buyMilkTask newId :: tasks) =
        ({ type := .complete, exactText := "Buy milk", originalCommand := oc,
           success := true, message := "Completed task: \"Buy milk\"",
           taskAffected := some (buyMilkTask newId) },
         { buyMilkTask newId with status := .completed } :: tasks) := by
      rw [ExactTaskService.executeCompleteTask]
      simp only [hfind1]
      rw [if_neg (by intro hc; cases hc), hupd]
      rfl
    have hp2 : (fun task => decide (toLowerCase task.title = toLowerCase "Buy milk"))
        ({ buyMilkTask newId with status := .completed }) = true := rfl
    have hfind2 : ({ buyMilkTask newId with status := .completed } :: tasks).find?
        (fun task => toLowerCase task.title = toLowerCase "Buy milk") =
        some ({ buyMilkTask newId with status := .completed }) :=
      List.find?_cons_of_pos _ hp2
    have hr3 : ExactTaskService.executeCompleteTask "Buy milk" oc
        ({ buyMilkTask newId with status := .completed } :: tasks) =
        ({ type := .complete, exactText := "Buy milk", originalCommand := oc,
           success := false, message := "Task \"Buy milk\" is already completed.",
           taskAffected := some ({ buyMilkTask newId with status := .completed }) },
         { buyMilkTask newId with status := .completed } :: tasks) := by
      rw [ExactTaskService.executeCompleteTask]
      simp only [hfind2]
      rfl
    rw [hadd, hr2, hr3]
    exact ⟨rfl, rfl, rfl, rfl, rfl⟩

/-- C7 witness: already-completed failure on "Call dentist", successful
completion of "Buy groceries", and the round trip from the empty store. -/
theorem c7_complete_semantics_witness :
    ExactTaskService.executeCompleteTask "Call dentist" "c" [Fixtures.tDentist] =
      ({ type := .complete, exactText := "Call dentist", originalCommand := "c",
         success := false,
         message := "Task \"Call dentist\" is already completed.",
         taskAffected := some Fixtures.tDentist }, [Fixtures.tDentist]) ∧
    (ExactTaskService.executeCompleteTask "Buy groceries" "c" [Fixtures.tBuy]).1.success
      = true ∧
    (ExactTaskService.executeCompleteTask "Buy groceries" "c" [Fixtures.tBuy]).2 =
      [{ Fixtures.tBuy with status := .completed }] ∧
    (ExactTaskService.executeCompleteTask "Buy milk" "c"
      (ExactTaskService.executeAddTask "Buy milk" "c" "7" [Fixtures.tDentist]).2).1.success
      = true ∧
    (ExactTaskService.executeCompleteTask "Buy milk" "c"
      ({ buyMilkTask "7" with status := .completed } :: [Fixtures.tDentist])).1.success
      = false ∧
    (ExactTaskService.executeCompleteTask "Buy milk" "c"
      ({ buyMilkTask "7" with status := .completed } :: [Fixtures.tDentist])).1.message =
      "Task \"Buy milk\" is already completed." := by
  have h1 := c7_complete_semantics [Fixtures.tDentist] "Call dentist" "c" Fixtures.tDentist
    (by decide)
  have h2 := c7_complete_semantics [Fixtures.tBuy] "Buy groceries" "c" Fixtures.tBuy
    (by decide)
  refine ⟨h1.1 rfl, ?_, ?_, ?_, ?_, ?_⟩
  · exact (h2.2.1 (by decide) (by decide)).1
  · rw [(h2.2.1 (by decide) (by decide)).2.2]
    decide
  · exact (h1.2.2.2.2 "7").1
  · exact (h1.2.2.2.2 "7").2.2.1
  · exact (h1.2.2.2.2 "7").2.2.2.1

end ClaimC7

section ClaimC8

open SmartTaskAssistant
open SmartCommandProcessor

/-- C8 counterexample: `SmartTaskAssistant.handleAddTask` has no emptiness
guard — with empty extracted content it still creates a task (titled "") and
returns success, contradicting "if the extracted content is empty the executor
returns failure … and no task is created". -/
theorem c8_counterexample :
    (handleAddTask "" {} "7" { tasks := [] }).1.success = true ∧
    (handleAddTask "" {} "7" { tasks := [] }).2.tasks =
      [{ id := "7", title := "", priority := .medium, status := .pending,
         tags := ["voice"] }] ∧
    (handleAddTask "" {} "7" { tasks := [] }).1.taskAffected =
      some { id := "7", title := "", priority := .medium, status := .pending,
             tags := ["voice"] } := by
  exact ⟨rfl, rfl, rfl⟩

/-- C8 as amended: `SmartCommandProcessor.executeAddTask` fails with the
"please specify" prompt on empty content (and never touches the store), and on
non-empty content succeeds carrying exactly the extracted content;
`SmartTaskAssistant.handleAddTask` creates, for every content — empty
included — a pending task whose title is exactly the content, and returns
success with the created task. -/
theorem c8_add_semantics (intent : ParsedIntent) (content : String)
    (metadata : TaskMetadata) (newId : String) (st : AssistantState) :
    (intent.content = "" →
      executeAddTask intent =
        { success := false, message := "Please specify what task to add.",
          confidence := intent.confidence,
          spokenReply := some "What task would you like me to add?" }) ∧
    (intent.content ≠ "" →
      (executeAddTask intent).success = true ∧
      (executeAddTask intent).taskContent = some intent.content ∧
      (executeAddTask intent).action = some .add ∧
      (executeAddTask intent).createEditableTask = true) ∧
    ((handleAddTask content metadata newId st).1.success = true ∧
     (handleAddTask content metadata newId st).2.tasks =
       { id := newId, title := content, description := none,
         priority := metadata.priority.getD .medium, status := .pending,
         dueDate := metadata.dueDate, tags := "voice" :: metadata.tags } :: st.tasks ∧
     (handleAddTask content metadata newId st).1.taskAffected =
       some { id := newId, title := content, description := none,
              priority := metadata.priority.getD .medium, status := .pending,
              dueDate := metadata.dueDate, tags := "voice" :: metadata.tags } ∧
     (handleAddTask content metadata newId st).2.pendingConfirmation =
       st.pendingConfirmation) := by
  refine ⟨?_, ?_, ?_⟩
  · intro h
    rw [executeAddTask, if_pos h]
  · intro h
    rw [executeAddTask, if_neg h]
    exact ⟨rfl, rfl, rfl, rfl⟩
  · exact ⟨rfl, rfl, rfl, rfl⟩

/-- C8 witness at concrete intents and contents. -/
theorem c8_add_semantics_witness :
    executeAddTask { action := .add, content := "", confidence := 3/5 } =
      { success := false, message := "Please specify what task to add.",
        confidence := 3/5,
        spokenReply := some "What task would you like me to add?" } ∧
    (executeAddTask { action := .add, content := "buy milk", confidence := 3/5 }).success
      = true ∧
    (executeAddTask { action := .add, content := "buy milk", confidence := 3/5 }).taskContent
      = some "buy milk" ∧
    (handleAddTask "Buy groceries" {} "9" { tasks := [] }).1.success = true ∧
    (handleAddTask "Buy groceries" {} "9" { tasks := [] }).2.tasks =
      [{ id := "9", title := "Buy groceries", description := none, priority := .medium,
         status := .pending, dueDate := none, tags := ["voice"] }] := by
  have h1 := c8_add_semantics { action := .add, content := "", confidence := 3/5 }
    "Buy groceries" {} "9" { tasks := [] }
  have h2 := c8_add_semantics { action := .add, content := "buy milk", confidence := 3/5 }
    "Buy groceries" {} "9" { tasks := [] }
  refine ⟨h1.1 rfl, (h2.2.1 (by decide)).1, (h2.2.1 (by decide)).2.1, h1.2.2.1, ?_⟩
  rw [h1.2.2.2.1]
  rfl

end ClaimC8

section ClaimC9

open SmartCommandProcessor

/-- C9 counterexample: listing over an entirely empty store and over a store
whose every task is completed produce the identical result record — there is
no distinct report for the empty store, contradicting the claimed
distinction. -/
theorem c9_counterexample :
    executeListTasks { action := .list, content := "", confidence := 3/5 } [] =
      executeListTasks { action := .list, content := "", confidence := 3/5 }
        [Fixtures.tDentist] := by
  rfl

/-- C9 as amended: the list operation keeps only non-completed tasks, shows at
most 5 with 1-based numbering, and when no pending tasks exist reports
"You have no pending tasks. Great job!" — the same report whether the store is
entirely empty or merely has every task completed. -/
theorem c9_list_semantics (intent : ParsedIntent) (tasks : List Task) :
    (tasks.filter (fun t => t.status ≠ .completed) = [] →
      executeListTasks intent tasks =
        { success := true, message := "You have no pending tasks. Great job!",
          action := some .list, confidence := intent.confidence,
          spokenReply := some "You have no pending tasks. You're all caught up!" }) ∧
    (tasks.filter (fun t => t.status ≠ .completed) ≠ [] →
      (executeListTasks intent tasks).success = true ∧
      (executeListTasks intent tasks).message =
        "Your tasks: " ++ numberedTaskList
          ((tasks.filter (fun t => t.status ≠ .completed)).take 5) ∧
      ((tasks.filter (fun t => t.status ≠ .completed)).take 5).length ≤ 5) := by
  constructor
  · intro h
    rw [executeListTasks]
    simp only [h]
    rfl
  · intro h
    have hlen : (tasks.filter (fun t => t.status ≠ .completed)).length ≠ 0 := by
      intro hc
      exact h (List.length_eq_zero.mp hc)
    rw [executeListTasks]
    simp only []
    rw [if_neg hlen]
    refine ⟨rfl, rfl, ?_⟩
    rw [List.length_take]
    exact min_le_left _ _

/-- C9 witness: three stored tasks, one completed, listed with 1-based
numbers; and the all-completed store hitting the no-pending report. -/
theorem c9_list_semantics_witness :
    (executeListTasks { action := .list, content := "", confidence := 3/5 }
      [Fixtures.tBuy, Fixtures.tReport, Fixtures.tDentist]).message =
      "Your tasks: " ++ numberedTaskList [Fixtures.tBuy, Fixtures.tReport] ∧
    executeListTasks { action := .list, content := "", confidence := 3/5 }
      [Fixtures.tDentist] =
      { success := true, message := "You have no pending tasks. Great job!",
        action := some .list, confidence := 3/5,
        spokenReply := some "You have no pending tasks. You're all caught up!" } := by
  have h1 := c9_list_semantics { action := .list, content := "", confidence := 3/5 }
    [Fixtures.tBuy, Fixtures.tReport, Fixtures.tDentist]
  have h2 := c9_list_semantics { action := .list, content := "", confidence := 3/5 }
    [Fixtures.tDentist]
  constructor
  · have := (h1.2 (by decide)).2.1
    rw [this]
    decide
  · exact h2.1 (by decide)

end ClaimC9

section ClaimC4

open SmartTaskAssistant

/-- The title of the C4 counterexample task. -/
def tDcba : Task :=
  { id := "1", title := "dcba", priority := .medium, status := .pending }

/-- Whitespace tokens of length > 2, deduplicated — the token sets named by
claim C4's wording. -/
def longTokens (s : String) : List String :=
  ((splitOnSpaces s).filter (fun w => 2 < w.length)).dedup

/-- The similarity scoring exactly as claim C4 words it, NOT as the code
computes it: exact 1.0, substring 0.8, otherwise word overlap over
whitespace-delimited tokens of length > 2 with |intersection| / |union|
scaled by 0.6 (and no other tier).  Defined only to compare the claim's
wording against `calculateSimilarity`. -/
def claimedSimilarity (query title : String) : Rat :=
  let q := toLowerCase query
  let t := toLowerCase title
  if q = t then 1
  else if strIncludes t q || strIncludes q t then 4/5
  else
    let w1 := longTokens q
    let w2 := longTokens t
    let inter := w1.filter (fun w => w ∈ w2)
    let uni := (w1 ++ w2).dedup
    if uni.length = 0 then 0
    else ((inter.length : Rat) / (uni.length : Rat)) * (3/5)

theorem claimedSimilarity_words {query title : String} {i u : Nat}
    (h1 : toLowerCase query ≠ toLowerCase title)
    (h2 : (strIncludes (toLowerCase title) (toLowerCase query) ||
      strIncludes (toLowerCase query) (toLowerCase title)) = false)
    (hi : ((longTokens (toLowerCase query)).filter
      (fun w => w ∈ longTokens (toLowerCase title))).length = i)
    (hu : ((longTokens (toLowerCase query) ++
      longTokens (toLowerCase title)).dedup).length = u)
    (hune : u ≠ 0) :
    claimedSimilarity query title = ((i : Rat) / (u : Rat)) * (3/5) := by
  rw [claimedSimilarity, if_neg h1, if_neg (by simp [h2])]
  simp only [hi, hu]
  rw [if_neg hune]

/-- C4 counterexample: for query "abcd" against title "dcba" the claimed
scoring (word overlap over tokens of length > 2 only) yields 0 — below the
0.3 threshold, so the claim says the task is excluded — while the code's
character-overlap fallback (absent from the claim) scores 0.4 and
`findTaskSuggestions` returns the task. -/
theorem c4_counterexample :
    claimedSimilarity "abcd" "dcba" = 0 ∧
    calculateSimilarity "abcd" "dcba" = 2/5 ∧
    findTaskSuggestions "abcd" [tDcba] =
      [{ task := tDcba, similarity := 2/5, matchType := .fuzzy }] := by
  have hchars : calculateSimilarity "abcd" "dcba" = 2/5 := by
    rw [calculateSimilarity_chars (o := 4) (m := 4) (by decide) (by decide) (by decide)
      (by decide) (by decide)]
    norm_num
  refine ⟨?_, hchars, ?_⟩
  · rw [claimedSimilarity_words (i := 0) (u := 2) (by decide) (by decide) (by decide)
      (by decide) (by decide)]
    norm_num
  · have hsim : calculateSimilarity (toLowerCase "abcd") (toLowerCase "dcba") = 2/5 := by
      rw [show toLowerCase "abcd" = "abcd" from by decide,
        show toLowerCase "dcba" = "dcba" from by decide]
      exact hchars
    have hmt : getMatchType (toLowerCase "abcd") (toLowerCase "dcba") = .fuzzy := by decide
    have hsug : suggestionFor "abcd" tDcba =
        some { task := tDcba, similarity := 2/5, matchType := .fuzzy } := by
      rw [suggestionFor, show tDcba.title = "dcba" from rfl, hsim,
        if_pos (by norm_num : (3 : Rat)/10 < 2/5), hmt]
    simp [findTaskSuggestions, hsug, sortBySimilarity, insertDesc]

/-- C4 as amended, matching the code: exact equality 1.0; substring 0.8;
otherwise word overlap over ALL whitespace tokens (no length filter), scored
(number of query tokens, with multiplicity, found among title tokens) /
(number of distinct tokens) * 0.6 when some query token occurs in the title;
otherwise a character-overlap fallback scaled by 0.4; and `findTaskSuggestions`
keeps exactly the tasks whose score strictly exceeds 0.3 (nothing clearing it
yields an empty result). -/
theorem c4_similarity_semantics (query : String) (tasks : List Task) (s t : String) :
    (s = t → calculateSimilarity s t = 1) ∧
    (s ≠ t → (strIncludes t s || strIncludes s t) = true →
      calculateSimilarity s t = 4/5) ∧
    (s ≠ t → (strIncludes t s || strIncludes s t) = false →
      0 < ((splitOnSpaces s).filter (fun word => word ∈ splitOnSpaces t)).length →
      calculateSimilarity s t =
        ((((splitOnSpaces s).filter (fun word => word ∈ splitOnSpaces t)).length : Rat) /
          ((((splitOnSpaces s ++ splitOnSpaces t).dedup)).length : Rat)) * (3/5)) ∧
    (s ≠ t → (strIncludes t s || strIncludes s t) = false →
      ((splitOnSpaces s).filter (fun word => word ∈ splitOnSpaces t)).length = 0 →
      calculateSimilarity s t =
        (((s.toList.filter (fun c => c ∈ t.toList)).length : Rat) /
          ((max s.length t.length : Nat) : Rat)) * (2/5)) ∧
    (∀ x ∈ findTaskSuggestions query tasks,
      x.task ∈ tasks ∧
      x.similarity = calculateSimilarity (toLowerCase query) (toLowerCase x.task.title) ∧
      3/10 < x.similarity) ∧
    ((∀ u ∈ tasks,
        calculateSimilarity (toLowerCase query) (toLowerCase u.title) ≤ 3/10) →
      findTaskSuggestions query tasks = []) := by
  refine ⟨?_, ?_, ?_, ?_, ?_, ?_⟩
  · exact fun h => calculateSimilarity_exact h
  · exact fun h h2 => calculateSimilarity_sub h h2
  · intro h h2 hpos
    exact calculateSimilarity_words h h2 rfl rfl hpos
  · intro h h2 hzero
    exact calculateSimilarity_chars h h2 hzero rfl rfl
  · exact fun x hx => findTaskSuggestions_mem hx
  · exact fun h => findTaskSuggestions_eq_nil h

/-- C4 witness: one concrete input through each tier and through the
threshold filter. -/
theorem c4_similarity_semantics_witness :
    calculateSimilarity "mark" "mark" = 1 ∧
    calculateSimilarity "groceries" "buy groceries" = 4/5 ∧
    calculateSimilarity "go up in now" "go up in car" = 9/25 ∧
    calculateSimilarity "abcd" "dcba" = 2/5 ∧
    findTaskSuggestions "zzzz" [Fixtures.tBuy] = [] := by
  have h1 := c4_similarity_semantics "zzzz" [Fixtures.tBuy] "mark" "mark"
  have h2 := c4_similarity_semantics "zzzz" [Fixtures.tBuy] "groceries" "buy groceries"
  have h3 := c4_similarity_semantics "zzzz" [Fixtures.tBuy] "go up in now" "go up in car"
  have h4 := c4_similarity_semantics "zzzz" [Fixtures.tBuy] "abcd" "dcba"
  refine ⟨h1.1 rfl, h2.2.1 (by decide) (by decide), ?_, ?_, ?_⟩
  · rw [h3.2.2.1 (by decide) (by decide) (by decide)]
    rw [show ((splitOnSpaces "go up in now").filter
        (fun word => word ∈ splitOnSpaces "go up in car")).length = 3 from by decide,
      show (((splitOnSpaces "go up in now" ++ splitOnSpaces "go up in car").dedup)).length = 5
        from by decide]
    norm_num
  · rw [h4.2.2.2.1 (by decide) (by decide) (by decide)]
    rw [show ("abcd".toList.filter (fun c => c ∈ "dcba".toList)).length = 4 from by decide,
      show (max "abcd".length "dcba".length : Nat) = 4 from by decide]
    norm_num
  · refine h1.2.2.2.2.2 ?_
    intro u hu
    rcases List.mem_singleton.mp hu with rfl
    rw [show toLowerCase "zzzz" = "zzzz" from by decide,
      show toLowerCase Fixtures.tBuy.title = "buy groceries" from by decide]
    rw [calculateSimilarity_chars (o := 0) (m := 13) (by decide) (by decide) (by decide)
      (by decide) (by decide)]
    norm_num

end ClaimC4

section ClaimC5

open SmartTaskAssistant

/-- The unrelated task of the C5 counterexample. -/
def tAB : Task :=
  { id := "1", title := "a b", priority := .medium, status := .pending }

/-- The exactly-matching task of the C5 counterexample. -/
def tAAAA : Task :=
  { id := "2", title := "a a a a", priority := .medium, status := .pending }

/-- C5 counterexample: with query "a a a a" exactly one stored title equals
the query, yet the word-overlap scoring hands the OTHER task score
4/2 · 0.6 = 1.2 > 1.0 (the intersection counts the repeated query token four
times, the union deduplicates to two), so that task — not the exact match —
is the top-ranked candidate, and its score is not 1.0. -/
theorem c5_counterexample :
    findTaskSuggestions "a a a a" [tAB, tAAAA] =
      [{ task := tAB, similarity := 6/5, matchType := .fuzzy },
       { task := tAAAA, similarity := 1, matchType := .exact }] := by
  have hsim1 : calculateSimilarity "a a a a" "a b" = 6/5 := by
    rw [calculateSimilarity_words (i := 4) (u := 2) (by decide) (by decide) (by decide)
      (by decide) (by decide)]
    norm_num
  have hsim1' : calculateSimilarity (toLowerCase "a a a a") (toLowerCase "a b") = 6/5 := by
    rw [show toLowerCase "a a a a" = "a a a a" from by decide,
      show toLowerCase "a b" = "a b" from by decide]
    exact hsim1
  have hmt1 : getMatchType (toLowerCase "a a a a") (toLowerCase "a b") = .fuzzy := by decide
  have hsug1 : suggestionFor "a a a a" tAB =
      some { task := tAB, similarity := 6/5, matchType := .fuzzy } := by
    rw [suggestionFor, show tAB.title = "a b" from rfl, hsim1',
      if_pos (by norm_num : (3 : Rat)/10 < 6/5), hmt1]
  have hsim2 : calculateSimilarity (toLowerCase "a a a a") (toLowerCase "a a a a") = 1 :=
    calculateSimilarity_exact rfl
  have hmt2 : getMatchType (toLowerCase "a a a a") (toLowerCase "a a a a") = .exact := by
    rw [getMatchType, if_pos rfl]
  have hsug2 : suggestionFor "a a a a" tAAAA =
      some { task := tAAAA, similarity := 1, matchType := .exact } := by
    rw [suggestionFor, show tAAAA.title = "a a a a" from rfl, hsim2,
      if_pos (by norm_num : (3 : Rat)/10 < 1), hmt2]
  have hfm : List.filterMap (suggestionFor "a a a a") [tAB, tAAAA] =
      [{ task := tAB, similarity := 6/5, matchType := .fuzzy },
       { task := tAAAA, similarity := 1, matchType := .exact }] := by
    simp only [List.filterMap_cons, hsug1, hsug2, List.filterMap_nil]
  rw [findTaskSuggestions, hfm]
  show insertDesc _ (insertDesc _ (sortBySimilarity [])) = _
  rw [sortBySimilarity, insertDesc, insertDesc,
    if_pos (show (1 : Rat) ≤ 6/5 from by norm_num)]

/-- C5 as amended: when exactly one stored title equals the query
case-insensitively AND the lowercased query's whitespace token list has no
duplicated token, the exact match is the unique top-ranked candidate with
score 1.0 and every other returned candidate scores strictly below 1.0.
(Without the no-duplicate proviso the claim fails: a query with repeated
tokens can push an unrelated title's word-overlap score above 1.0.) -/
theorem c5_unique_exact_top (query : String) (l₁ : List Task) (t0 : Task)
    (l₂ : List Task)
    (hq : (splitOnSpaces (toLowerCase query)).Nodup)
    (ht0 : toLowerCase t0.title = toLowerCase query)
    (hl₁ : ∀ x ∈ l₁, toLowerCase x.title ≠ toLowerCase query)
    (hl₂ : ∀ x ∈ l₂, toLowerCase x.title ≠ toLowerCase query) :
    ∃ rest, findTaskSuggestions query (l₁ ++ t0 :: l₂) =
      { task := t0, similarity := 1, matchType := .exact } :: rest ∧
      ∀ x ∈ rest, x.similarity < 1 := by
  set e : TaskSuggestion := { task := t0, similarity := 1, matchType := .exact } with he
  have hsim0 : calculateSimilarity (toLowerCase query) (toLowerCase t0.title) = 1 :=
    calculateSimilarity_exact ht0.symm
  have hf0 : suggestionFor query t0 = some e := by
    rw [suggestionFor, hsim0, if_pos (by norm_num : (3 : Rat)/10 < 1),
      getMatchType, if_pos ht0.symm]
  have hfl : (l₁ ++ t0 :: l₂).filterMap (suggestionFor query) =
      l₁.filterMap (suggestionFor query) ++ e :: l₂.filterMap (suggestionFor query) := by
    rw [List.filterMap_append]
    congr 1
    simp only [List.filterMap_cons, hf0]
  have hside : ∀ (l : List Task), (∀ x ∈ l, toLowerCase x.title ≠ toLowerCase query) →
      ∀ y ∈ l.filterMap (suggestionFor query), y.similarity < 1 ∧ y ≠ e := by
    intro l hl y hy
    rcases List.mem_filterMap.mp hy with ⟨a, ha, hfa⟩
    rcases suggestionFor_eq_some hfa with ⟨htask, hsim, _⟩
    have hne : toLowerCase query ≠ toLowerCase a.title :=
      fun hEq => hl a ha hEq.symm
    have hlt : y.similarity < 1 := by
      rw [hsim]
      exact calculateSimilarity_lt_one hne hq
    refine ⟨hlt, ?_⟩
    intro hye
    rw [hye, he] at hlt
    exact absurd hlt (by norm_num)
  have hcount : ((l₁ ++ t0 :: l₂).filterMap (suggestionFor query)).count e = 1 := by
    rw [hfl, List.count_append, List.count_cons_self]
    have hc₁ : (l₁.filterMap (suggestionFor query)).count e = 0 := by
      rw [List.count_eq_zero]
      intro hmem
      exact (hside l₁ hl₁ e hmem).2 rfl
    have hc₂ : (l₂.filterMap (suggestionFor query)).count e = 0 := by
      rw [List.count_eq_zero]
      intro hmem
      exact (hside l₂ hl₂ e hmem).2 rfl
    rw [hc₁, hc₂]
  have hmem : e ∈ (l₁ ++ t0 :: l₂).filterMap (suggestionFor query) := by
    rw [hfl]
    exact List.mem_append_right _ (List.mem_cons_self _ _)
  have hlt : ∀ x ∈ (l₁ ++ t0 :: l₂).filterMap (suggestionFor query),
      x ≠ e → x.similarity < e.similarity := by
    intro x hx hxe
    rw [hfl] at hx
    rcases List.mem_append.mp hx with hx₁ | hx₂
    · exact (hside l₁ hl₁ x hx₁).1
    · rcases List.mem_cons.mp hx₂ with rfl | hx₃
      · exact absurd rfl hxe
      · exact (hside l₂ hl₂ x hx₃).1
  rcases sortBySimilarity_unique_max hmem hcount hlt with ⟨rest, hsort, hrest⟩
  refine ⟨rest, ?_, ?_⟩
  · rw [findTaskSuggestions, hsort]
  · intro x hx
    rcases hrest x hx with ⟨hxin, hxne⟩
    rw [hfl] at hxin
    rcases List.mem_append.mp hxin with hx₁ | hx₂
    · exact (hside l₁ hl₁ x hx₁).1
    · rcases List.mem_cons.mp hx₂ with rfl | hx₃
      · exact absurd rfl hxne
      · exact (hside l₂ hl₂ x hx₃).1

/-- C5 witness: "Buy groceries" against a two-task store. -/
theorem c5_unique_exact_top_witness :
    ∃ rest, findTaskSuggestions "Buy groceries" ([] ++ Fixtures.tBuy :: [Fixtures.tDentist]) =
      { task := Fixtures.tBuy, similarity := 1, matchType := .exact } :: rest ∧
      ∀ x ∈ rest, x.similarity < 1 := by
  exact c5_unique_exact_top "Buy groceries" [] Fixtures.tBuy [Fixtures.tDentist]
    (by decide) (by decide) (by decide) (by decide)

end ClaimC5

end Todo
